import Mathlib

/-!
Verification development for the deepulse browser-driven security tester.

The definitions below are a shallow embedding, translated from the Python
source, of:
* `BrowserStateTracker` (src/browser_use.py) — bounded page-state history with
  a last-stable pointer and error counters;
* `_detect_page_error` / `_analyze_sql_error` (src/browser_use.py) — the
  rule-based page-error classifier;
* `_ask_llm_about_page_state` and the navigation/click post-classification
  dispatch of `_execute_commands` (src/browser_use.py) — the advisory oracle
  path with its fallback behaviour;
* `_handle_error_with_recovery` (src/browser_use.py) — the recovery
  controller;
* the command-batch loop of `_execute_commands` (src/browser_use.py);
* `SQLInjectionTester._test_input_point` and its boolean/error/union probes
  (src/modules/testers/sql_injection.py);
* `TestFramework` (src/modules/test_framework.py) — the phase state machine.

External effects (the browser, the network, the LLM) are modelled as explicit
oracle inputs: a response function from submitted payload to observed page
text, record fields describing whether each external call succeeds, and the
raw text such calls return.  Machine-independent data (strings, lists,
naturals/integers) is used exactly as in the source; Python truthiness of
strings and optionals is modelled explicitly where the source relies on it.
-/

namespace Deepulse

/-! ## String helpers

Substring containment (Python's `in` operator on `str`) and a small matcher
covering exactly the regular-expression features used by the source's
`sql_error_contexts` patterns (`.*` and `[^']+`; everything else in those
patterns is literal text).  `re.IGNORECASE` is modelled by lowercasing both
sides.
-/

/-- The single-quote character, written via its code point. -/
def quoteChar : Char := Char.ofNat 39

/-- ASCII lowercasing of one character (the only case the source's patterns
need; matches `Char.toLower`). -/
def lowerChar (c : Char) : Char :=
  if 65 ≤ c.toNat ∧ c.toNat ≤ 90 then Char.ofNat (c.toNat + 32) else c

/-- Python's `str.lower()` restricted to ASCII letters, as a character list. -/
def lowerList (cs : List Char) : List Char := cs.map lowerChar

/-- Python's `str.lower()` restricted to ASCII letters. -/
def strToLower (s : String) : String := String.mk (lowerList s.toList)

/-- The single-quote character as a one-character string. -/
def sq : String := quoteChar.toString

/-- `subListAt needle hay`: does `hay` start with `needle`? -/
def subListAt (needle hay : List Char) : Bool := List.isPrefixOf needle hay

/-- Does `hay` contain `needle` as a contiguous sublist? (Python `needle in hay`.) -/
def listContainsSub (needle : List Char) : List Char → Bool
  | [] => subListAt needle []
  | c :: rest => subListAt needle (c :: rest) || listContainsSub needle rest

/-- Python's `needle in hay` on strings. -/
def strContains (hay needle : String) : Bool :=
  listContainsSub needle.toList hay.toList

/-- One token of a source regex pattern: a literal run, `.*`, or `[^']+`. -/
inductive PatTok where
  | lit (s : String)
  | anyStar
  | nonQuotePlus
  deriving Repr, DecidableEq

/-- Match a token list against the front of `cs`; trailing text may remain
(the enclosing search supplies `re.search` semantics). -/
def matchHere : List PatTok → List Char → Bool
  | [], _ => true
  | PatTok.lit s :: ps, cs =>
      subListAt s.toList cs && matchHere ps (cs.drop s.toList.length)
  | PatTok.anyStar :: ps, cs =>
      (List.range (cs.length + 1)).any (fun k => matchHere ps (cs.drop k))
  | PatTok.nonQuotePlus :: ps, cs =>
      (List.range cs.length).any (fun k =>
        ((cs.take (k + 1)).all (fun c => c ≠ quoteChar)) && matchHere ps (cs.drop (k + 1)))

/-- `re.search`: the pattern may match starting at any position. -/
def regexSearch (ps : List PatTok) : List Char → Bool
  | [] => matchHere ps []
  | c :: rest => matchHere ps (c :: rest) || regexSearch ps rest

/-- `re.search(pat, s, re.IGNORECASE)`, with `pat` already written lowercase. -/
def regexSearchCI (ps : List PatTok) (s : String) : Bool :=
  regexSearch ps (lowerList s.toList)

/-! ## `BrowserStateTracker` (src/browser_use.py, class `BrowserStateTracker`) -/

/-- One entry of `state_history`: the dict built in `record_url`. -/
structure PageState where
  url : String
  title : String
  timestamp : Nat
  stable : Bool
  deriving Repr, DecidableEq

/-- The fields of `BrowserStateTracker`. -/
structure BrowserStateTracker where
  url_history : List String
  state_history : List PageState
  last_stable_url : Option String
  max_history : Nat
  has_error : Bool
  error_details : Option String
  auto_recovery : Bool
  consecutive_errors : Nat
  deriving Repr, DecidableEq

namespace BrowserStateTracker

/-- `BrowserStateTracker.__init__(max_history=10, auto_recovery=True)`. -/
def init (maxHistory : Nat := 10) (autoRecovery : Bool := true) : BrowserStateTracker :=
  { url_history := []
    state_history := []
    last_stable_url := none
    max_history := maxHistory
    has_error := false
    error_details := none
    auto_recovery := autoRecovery
    consecutive_errors := 0 }

/-- Python truthiness of an optional string (`if self.last_stable_url:`). -/
def optTruthy : Option String → Bool
  | none => false
  | some s => s ≠ ""

/-- `record_url(url, is_stable=True, page_title="")`.  The ambient
`time.time()` is passed explicitly as `ts`. -/
def record_url (t : BrowserStateTracker) (url : String) (stable : Bool := true)
    (page_title : String := "") (ts : Nat := 0) : BrowserStateTracker :=
  if url = "" ∨ url = "about:blank" then t
  else
    let t1 := { t with
      url_history := t.url_history ++ [url]
      state_history := t.state_history ++ [⟨url, page_title, ts, stable⟩] }
    let t2 := if t1.url_history.length > t1.max_history
      then { t1 with
        url_history := t1.url_history.tail
        state_history := t1.state_history.tail }
      else t1
    if stable then
      { t2 with
        last_stable_url := some url
        has_error := false
        error_details := none
        consecutive_errors := 0 }
    else t2

/-- `mark_error(url, error_details)`. -/
def mark_error (t : BrowserStateTracker) (url : String) (details : String)
    (ts : Nat := 0) : BrowserStateTracker :=
  let t1 := { t with
    has_error := true
    error_details := some details
    consecutive_errors := t.consecutive_errors + 1 }
  record_url t1 url false "" ts

/-- `get_recovery_url()`. -/
def get_recovery_url (t : BrowserStateTracker) : Option String :=
  if optTruthy t.last_stable_url then t.last_stable_url
  else
    match (t.state_history.dropLast.reverse.find? (fun s => s.stable)) with
    | some s => some s.url
    | none =>
      if t.url_history.length > 1 then
        t.url_history.get? (t.url_history.length - 2)
      else if t.url_history ≠ [] then t.url_history.get? 0
      else none

/-- `should_auto_recover()`. -/
def should_auto_recover (t : BrowserStateTracker) : Bool :=
  if t.consecutive_errors ≥ 2 then true
  else t.has_error && t.auto_recovery

/-- `get_suggestion()`. -/
def get_suggestion (t : BrowserStateTracker) : String :=
  if t.has_error && optTruthy t.last_stable_url then
    let u := (t.last_stable_url.getD "")
    if t.consecutive_errors ≥ 2 then
      "consecutive errors detected; strongly suggest BACK or GOTO " ++ u
    else
      "error detected; suggest BACK or GOTO " ++ u
  else ""

/-- `clear()`. -/
def clear (t : BrowserStateTracker) : BrowserStateTracker :=
  { t with
    url_history := []
    state_history := []
    last_stable_url := none
    has_error := false
    error_details := none
    consecutive_errors := 0 }

end BrowserStateTracker

/-! ### Operation sequences on the tracker -/

/-- An externally visible tracker operation: `record_url` or `mark_error`. -/
inductive TrackerOp where
  | record (url : String) (stable : Bool) (title : String) (ts : Nat)
  | err (url : String) (details : String) (ts : Nat)
  deriving Repr, DecidableEq

/-- Apply one operation. -/
def applyOp (t : BrowserStateTracker) : TrackerOp → BrowserStateTracker
  | TrackerOp.record url stable title ts => t.record_url url stable title ts
  | TrackerOp.err url details ts => t.mark_error url details ts

/-- Apply a sequence of operations, oldest first. -/
def applyOps (t : BrowserStateTracker) (ops : List TrackerOp) : BrowserStateTracker :=
  ops.foldl applyOp t

/-- The URL an operation would append (every operation routes through
`record_url`). -/
def opUrl : TrackerOp → String
  | TrackerOp.record url _ _ _ => url
  | TrackerOp.err url _ _ => url

/-- URLs of the operations that pass `record_url`'s guard, in order. -/
def acceptedUrls (ops : List TrackerOp) : List String :=
  ops.filterMap (fun op =>
    if opUrl op = "" ∨ opUrl op = "about:blank" then none else some (opUrl op))

/-- The suffix of `l` of length at most `n`. -/
def lastN (n : Nat) (l : List α) : List α := l.drop (l.length - n)

theorem lastN_eq_self {n : Nat} {l : List α} (h : l.length ≤ n) : lastN n l = l := by
  unfold lastN
  have : l.length - n = 0 := by omega
  simp [this]

theorem lastN_length_le (n : Nat) (l : List α) : (lastN n l).length ≤ n := by
  unfold lastN
  simp only [List.length_drop]
  omega

theorem lastN_append_lt {n : Nat} {l : List α} (a : α) (h : l.length < n) :
    lastN n (l ++ [a]) = lastN n l ++ [a] := by
  rw [lastN_eq_self (le_of_lt h), lastN_eq_self (by simp; omega)]

theorem lastN_append_ge {n : Nat} {l : List α} (a : α) (h : n ≤ l.length) :
    lastN n (l ++ [a]) = (lastN n l ++ [a]).tail := by
  unfold lastN
  rw [← List.drop_append_of_le_length (show l.length - n ≤ l.length by omega),
    List.tail_drop]
  congr 1
  simp only [List.length_append, List.length_singleton]
  omega

theorem mem_lastN {n : Nat} {l : List α} {x : α} (h : x ∈ lastN n l) : x ∈ l :=
  List.drop_subset _ l h

/-- What `record_url` does to `url_history`, as a pure list step. -/
def histStep (n : Nat) (h : List String) (url : String) : List String :=
  if url = "" ∨ url = "about:blank" then h
  else if h.length + 1 > n then (h ++ [url]).tail else h ++ [url]

theorem record_url_url_history (t : BrowserStateTracker) (url : String) (stable : Bool)
    (title : String) (ts : Nat) :
    (t.record_url url stable title ts).url_history = histStep t.max_history t.url_history url ∧
    (t.record_url url stable title ts).max_history = t.max_history := by
  unfold BrowserStateTracker.record_url histStep
  split
  · exact ⟨rfl, rfl⟩
  · simp only [List.length_append, List.length_singleton]
    split <;> split <;> simp_all

theorem applyOp_url_history (t : BrowserStateTracker) (op : TrackerOp) :
    (applyOp t op).url_history = histStep t.max_history t.url_history (opUrl op) ∧
    (applyOp t op).max_history = t.max_history := by
  cases op with
  | record url stable title ts => exact record_url_url_history t url stable title ts
  | err url details ts =>
    simpa [applyOp, BrowserStateTracker.mark_error, opUrl] using
      record_url_url_history
        { t with has_error := true, error_details := some details,
                 consecutive_errors := t.consecutive_errors + 1 } url false "" ts

theorem histStep_lastN {n : Nat} {acc : List String} {h : List String} (a : String)
    (hh : h = lastN n acc) (hl : h.length ≤ n) :
    histStep n h a =
      lastN n (acc ++ (if a = "" ∨ a = "about:blank" then [] else [a])) := by
  by_cases hg : a = "" ∨ a = "about:blank"
  · simp [histStep, hg, hh]
  · simp only [histStep, hg, if_false, if_neg hg]
    subst hh
    by_cases hlen : acc.length < n
    · rw [if_neg (by rw [lastN_eq_self (le_of_lt hlen)]; omega)]
      rw [lastN_eq_self (le_of_lt hlen), lastN_append_lt a hlen]
      simp [lastN_eq_self (le_of_lt hlen)]
    · push_neg at hlen
      have hfull : (lastN n acc).length = n := by
        unfold lastN
        simp only [List.length_drop]
        omega
      rw [if_pos (by omega), lastN_append_ge a hlen]

theorem acceptedUrls_cons (op : TrackerOp) (rest : List TrackerOp) :
    acceptedUrls (op :: rest) =
      (if opUrl op = "" ∨ opUrl op = "about:blank" then [] else [opUrl op])
        ++ acceptedUrls rest := by
  by_cases hg : opUrl op = "" ∨ opUrl op = "about:blank"
  · simp [acceptedUrls, List.filterMap_cons, hg]
  · simp [acceptedUrls, List.filterMap_cons, hg]

/-- Folding tracker operations acts on `url_history` as the fold of
`histStep` over the accepted URLs. -/
theorem applyOps_url_history (ops : List TrackerOp) :
    ∀ (t : BrowserStateTracker) (acc : List String),
      t.url_history = lastN t.max_history acc →
      t.url_history.length ≤ t.max_history →
      (applyOps t ops).url_history =
        lastN t.max_history (acc ++ acceptedUrls ops) ∧
      (applyOps t ops).max_history = t.max_history := by
  induction ops with
  | nil => intro t acc h1 _; simpa [applyOps, acceptedUrls] using h1
  | cons op rest ih =>
    intro t acc h1 h2
    have step := applyOp_url_history t op
    have hstep : (applyOp t op).url_history =
        lastN t.max_history (acc ++ (if opUrl op = "" ∨ opUrl op = "about:blank"
          then [] else [opUrl op])) := by
      rw [step.1]; exact histStep_lastN (opUrl op) h1 h2
    have hlen : (applyOp t op).url_history.length ≤ t.max_history := by
      rw [hstep]; exact lastN_length_le _ _
    have := ih (applyOp t op) (acc ++ (if opUrl op = "" ∨ opUrl op = "about:blank"
      then [] else [opUrl op])) (by rw [hstep, step.2]) (by rw [step.2]; exact hlen)
    rw [step.2] at this
    refine ⟨?_, ?_⟩
    · rw [show applyOps t (op :: rest) = applyOps (applyOp t op) rest from rfl, this.1]
      rw [acceptedUrls_cons, ← List.append_assoc]
    · rw [show applyOps t (op :: rest) = applyOps (applyOp t op) rest from rfl, this.2]

theorem acceptedUrls_ok {u : String} {ops : List TrackerOp} (h : u ∈ acceptedUrls ops) :
    u ≠ "" ∧ u ≠ "about:blank" := by
  simp only [acceptedUrls, List.mem_filterMap] at h
  obtain ⟨op, _, hop⟩ := h
  by_cases hg : opUrl op = "" ∨ opUrl op = "about:blank"
  · simp [hg] at hop
  · simp [hg] at hop
    subst hop
    push_neg at hg
    exact hg

/-- C7.  Every sequence of `record_url`/`mark_error` operations keeps the
history within `max_history`, the retained entries are exactly the last
`max_history` accepted `record_url` calls in order (FIFO eviction), and no
retained URL is empty or `about:blank`. -/
theorem tracker_history_bound (maxHistory : Nat) (autoRecovery : Bool)
    (ops : List TrackerOp) :
    (applyOps (BrowserStateTracker.init maxHistory autoRecovery) ops).url_history.length
        ≤ maxHistory ∧
    (applyOps (BrowserStateTracker.init maxHistory autoRecovery) ops).url_history
        = lastN maxHistory (acceptedUrls ops) ∧
    ∀ u ∈ (applyOps (BrowserStateTracker.init maxHistory autoRecovery) ops).url_history,
      u ≠ "" ∧ u ≠ "about:blank" := by
  have base := applyOps_url_history ops (BrowserStateTracker.init maxHistory autoRecovery) []
    (by simp [BrowserStateTracker.init, lastN]) (by simp [BrowserStateTracker.init])
  have hmax : (BrowserStateTracker.init maxHistory autoRecovery).max_history = maxHistory := rfl
  rw [hmax] at base
  refine ⟨?_, ?_, ?_⟩
  · rw [base.1]; exact lastN_length_le _ _
  · simpa using base.1
  · intro u hu
    rw [base.1] at hu
    simp only [List.nil_append] at hu
    exact acceptedUrls_ok (mem_lastN hu)

/-- C10.  `mark_error` on an empty or `about:blank` URL still raises the error
flag and increments `consecutive_errors` by exactly one, but appends nothing:
the histories and `last_stable_url` are unchanged (error counting is decoupled
from history recording). -/
theorem mark_error_bad_url_frame (t : BrowserStateTracker) (d : String) (ts : Nat) :
    ((t.mark_error "" d ts).has_error = true ∧
     (t.mark_error "" d ts).consecutive_errors = t.consecutive_errors + 1 ∧
     (t.mark_error "" d ts).url_history = t.url_history ∧
     (t.mark_error "" d ts).state_history = t.state_history ∧
     (t.mark_error "" d ts).last_stable_url = t.last_stable_url) ∧
    ((t.mark_error "about:blank" d ts).has_error = true ∧
     (t.mark_error "about:blank" d ts).consecutive_errors = t.consecutive_errors + 1 ∧
     (t.mark_error "about:blank" d ts).url_history = t.url_history ∧
     (t.mark_error "about:blank" d ts).state_history = t.state_history ∧
     (t.mark_error "about:blank" d ts).last_stable_url = t.last_stable_url) := by
  refine ⟨⟨?_, ?_, ?_, ?_, ?_⟩, ⟨?_, ?_, ?_, ?_, ?_⟩⟩ <;>
    simp [BrowserStateTracker.mark_error, BrowserStateTracker.record_url]

/-! ### Reachability invariant and the recovery-URL fallback chain -/

/-- Invariant holding for every tracker state reachable from `init`:
the two histories hold the same URLs in step, `last_stable_url` is never the
empty string (it only ever receives URLs that passed `record_url`'s guard),
and while `last_stable_url` is unset no stable entry can be in the history. -/
def TrackerInv (t : BrowserStateTracker) : Prop :=
  t.state_history.map (fun s => s.url) = t.url_history ∧
  t.last_stable_url ≠ some "" ∧
  (t.last_stable_url = none → ∀ s ∈ t.state_history, s.stable = false)

instance : DecidablePred TrackerInv := fun t => by
  unfold TrackerInv
  infer_instance

theorem trackerInv_init (maxHistory : Nat) (autoRecovery : Bool) :
    TrackerInv (BrowserStateTracker.init maxHistory autoRecovery) := by
  refine ⟨rfl, by simp [BrowserStateTracker.init], ?_⟩
  intro _ s hs
  simp [BrowserStateTracker.init] at hs

/-- Normal form of `record_url`: every field written at once. -/
theorem record_url_spec (t : BrowserStateTracker) (url : String) (stable : Bool)
    (title : String) (ts : Nat) :
    t.record_url url stable title ts =
      if url = "" ∨ url = "about:blank" then t
      else
        { t with
          url_history := if t.url_history.length + 1 > t.max_history
            then (t.url_history ++ [url]).tail else t.url_history ++ [url]
          state_history := if t.url_history.length + 1 > t.max_history
            then (t.state_history ++ [(⟨url, title, ts, stable⟩ : PageState)]).tail
            else t.state_history ++ [(⟨url, title, ts, stable⟩ : PageState)]
          last_stable_url := if stable then some url else t.last_stable_url
          has_error := if stable then false else t.has_error
          error_details := if stable then none else t.error_details
          consecutive_errors := if stable then 0 else t.consecutive_errors } := by
  unfold BrowserStateTracker.record_url
  by_cases hg : url = "" ∨ url = "about:blank"
  · simp [hg]
  · rw [if_neg hg, if_neg hg]
    by_cases hs : stable <;>
      simp only [hs, if_true, if_false, Bool.false_eq_true, List.length_append,
        List.length_singleton, gt_iff_lt] <;>
      split <;> rfl

theorem trackerInv_record_url (t : BrowserStateTracker) (url : String) (stable : Bool)
    (title : String) (ts : Nat) (h : TrackerInv t) :
    TrackerInv (t.record_url url stable title ts) := by
  obtain ⟨h1, h2, h3⟩ := h
  rw [record_url_spec]
  by_cases hg : url = "" ∨ url = "about:blank"
  · simpa [hg] using ⟨h1, h2, h3⟩
  · push_neg at hg
    rw [if_neg (by simp [hg.1, hg.2])]
    refine ⟨?_, ?_, ?_⟩
    · by_cases hlen : t.url_history.length + 1 > t.max_history
      · simp only [if_pos hlen]
        rw [List.map_tail]
        simp [h1]
      · simp only [if_neg hlen]
        simp [h1]
    · cases stable
      · simpa using h2
      · simp [hg.1]
    · cases stable
      · simp only [Bool.false_eq_true, if_false]
        intro hnone s hs'
        have hmem : s ∈ t.state_history ++ [(⟨url, title, ts, false⟩ : PageState)] := by
          by_cases hlen : t.url_history.length + 1 > t.max_history
          · rw [if_pos hlen] at hs'
            exact List.tail_subset _ hs'
          · rw [if_neg hlen] at hs'
            exact hs'
        rcases List.mem_append.mp hmem with hmem' | hmem'
        · exact h3 hnone s hmem'
        · simp only [List.mem_singleton] at hmem'
          subst hmem'
          rfl
      · simp

theorem trackerInv_mark_error (t : BrowserStateTracker) (url details : String) (ts : Nat)
    (h : TrackerInv t) : TrackerInv (t.mark_error url details ts) := by
  unfold BrowserStateTracker.mark_error
  exact trackerInv_record_url _ url false "" ts ⟨h.1, h.2.1, fun hn => h.2.2 hn⟩

theorem trackerInv_applyOps (t : BrowserStateTracker) (ops : List TrackerOp)
    (h : TrackerInv t) : TrackerInv (applyOps t ops) := by
  induction ops generalizing t with
  | nil => exact h
  | cons op rest ih =>
    cases op with
    | record url stable title ts =>
      exact ih (applyOp t (TrackerOp.record url stable title ts))
        (trackerInv_record_url t url stable title ts h)
    | err url details ts =>
      exact ih (applyOp t (TrackerOp.err url details ts))
        (trackerInv_mark_error t url details ts h)

/-- C8.  Every state reachable from `init` by `record_url`/`mark_error`
operations satisfies `TrackerInv`, and under that invariant `get_recovery_url`
returns `last_stable_url` when set; otherwise the stable-entry scan over the
history minus its last entry finds nothing, and the result is the
second-to-last URL (≥ 2 entries), the sole URL (exactly 1 entry), or `none`
(empty history). -/
theorem recovery_url_fallback_chain :
    (∀ (maxHistory : Nat) (autoRecovery : Bool) (ops : List TrackerOp),
      TrackerInv (applyOps (BrowserStateTracker.init maxHistory autoRecovery) ops)) ∧
    (∀ t : BrowserStateTracker, TrackerInv t →
      (∀ u, t.last_stable_url = some u → t.get_recovery_url = some u) ∧
      (t.last_stable_url = none →
        t.state_history.dropLast.reverse.find? (fun s => s.stable) = none ∧
        (2 ≤ t.url_history.length →
          t.get_recovery_url = t.url_history.get? (t.url_history.length - 2)) ∧
        (t.url_history.length = 1 → t.get_recovery_url = t.url_history.get? 0) ∧
        (t.url_history = [] → t.get_recovery_url = none))) := by
  constructor
  · intro maxHistory autoRecovery ops
    exact trackerInv_applyOps _ ops (trackerInv_init maxHistory autoRecovery)
  · intro t h
    obtain ⟨h1, h2, h3⟩ := h
    constructor
    · intro u hu
      have hne : u ≠ "" := fun he => h2 (he ▸ hu)
      simp [BrowserStateTracker.get_recovery_url, hu, BrowserStateTracker.optTruthy, hne]
    · intro hnone
      have hfind : t.state_history.dropLast.reverse.find? (fun s => s.stable) = none := by
        rw [List.find?_eq_none]
        intro s hs
        have : s ∈ t.state_history := List.dropLast_subset _ (List.mem_reverse.mp hs)
        simp [h3 hnone s this]
      refine ⟨hfind, ?_, ?_, ?_⟩
      · intro hlen
        simp only [BrowserStateTracker.get_recovery_url, hnone,
          BrowserStateTracker.optTruthy, if_neg Bool.false_ne_true, hfind]
        rw [if_pos (by omega)]
      · intro hlen
        simp only [BrowserStateTracker.get_recovery_url, hnone,
          BrowserStateTracker.optTruthy, if_neg Bool.false_ne_true, hfind]
        rw [if_neg (by omega), if_pos (by intro he; rw [he] at hlen; simp at hlen)]
      · intro hemp
        simp [BrowserStateTracker.get_recovery_url, hnone,
          BrowserStateTracker.optTruthy, hfind, hemp]

/-- A tracker that saw two error navigations and no stable page. -/
def trackerEx : BrowserStateTracker :=
  applyOps (BrowserStateTracker.init 10 true)
    [TrackerOp.err "http://site/a" "boom" 0, TrackerOp.err "http://site/b" "boom" 1]

theorem recovery_url_fallback_chain_witness :
    trackerEx.get_recovery_url = trackerEx.url_history.get? (trackerEx.url_history.length - 2) :=
  ((recovery_url_fallback_chain.2 trackerEx (by decide)).2 (by decide)).2.1 (by decide)

/-! ## Rule-based page-error classifier
(`_detect_page_error` / `_analyze_sql_error`, src/browser_use.py)

`sql_error_contexts` in the source is a list of regular expressions matched
with `re.IGNORECASE`; most are literal text, two use `.*`, two use `[^']+`,
and `mysql_fetch_array()` contains an *empty group*, so as a regex it matches
the literal text `mysql_fetch_array` (the parentheses match nothing).  The
log-message texts are rendered in English; only their structure (which
classifier data they embed) is relevant to the properties proved here.
-/

/-- The sixteen `sql_error_contexts` patterns, lowercased for `re.IGNORECASE`. -/
def sqlErrorContexts : List (List PatTok) :=
  [ [PatTok.lit "you have an error in your sql syntax"]
  , [PatTok.lit "error in your sql syntax"]
  , [PatTok.lit "mysql_fetch_array"]
  , [PatTok.lit "warning: mysql_"]
  , [PatTok.lit "sql syntax", PatTok.anyStar, PatTok.lit "near"]
  , [PatTok.lit "mysql error"]
  , [PatTok.lit "mariadb server version for the right syntax"]
  , [PatTok.lit "oracle", PatTok.anyStar, PatTok.lit "error"]
  , [PatTok.lit "postgresql", PatTok.anyStar, PatTok.lit "error"]
  , [PatTok.lit "sqlite_error"]
  , [PatTok.lit "microsoft sql", PatTok.anyStar, PatTok.lit "error"]
  , [PatTok.lit "odbc sql server driver"]
  , [PatTok.lit "database error"]
  , [PatTok.lit "microsoft ole db provider for odbc drivers error"]
  , [PatTok.lit ("unknown column " ++ sq), PatTok.nonQuotePlus,
     PatTok.lit (sq ++ " in " ++ sq ++ "field list" ++ sq)]
  , [PatTok.lit ("table " ++ sq), PatTok.nonQuotePlus,
     PatTok.lit (sq ++ " doesn" ++ sq ++ "t exist")] ]

/-- Does the page content match one of the strict SQL-error signatures? -/
def sqlErrorMatch (pageContent : String) : Bool :=
  sqlErrorContexts.any (fun p => regexSearchCI p pageContent)

/-- `_analyze_sql_error(page_content)`: classifies the *kind* of SQL error to
produce a hint string. -/
def analyze_sql_error (pageContent : String) : String :=
  let lower := strToLower pageContent
  if strContains pageContent "You have an error in your SQL syntax" &&
      (strContains pageContent ("near " ++ sq ++ sq) ||
       strContains pageContent ("near " ++ sq ++ sq ++ sq)) then
    "SQL syntax error, quote closure problem; try # instead of -- or a different closure"
  else if strContains pageContent "You have an error in your SQL syntax" &&
      strContains pageContent ("near " ++ sq ++ "--" ++ sq) then
    "SQL syntax error, comment marker problem; in MySQL -- needs a trailing space, try #"
  else if strContains lower "order by" &&
      (strContains lower "error" || strContains lower "syntax") then
    "ORDER BY syntax problem; try a different closure such as 1" ++ sq ++ " ORDER BY 1#"
  else if strContains lower "union select" &&
      (strContains lower "error" || strContains lower "syntax") then
    "UNION SELECT syntax problem; make sure the column count matches"
  else
    "SQL error detected but cause unknown; go back and try a different injection syntax"

/-- The `error_phrases` list (checked case-sensitively, in order). -/
def errorPhrases : List String :=
  [ "404 Not Found", "403 Forbidden", "500 Internal Server Error"
  , "Access Denied", "权限不足", "无权访问", "页面不存在"
  , "服务器错误", "服务暂时不可用", "Bad Request", "Gateway Timeout" ]

/-- The page signals `_detect_page_error` samples.  `httpStatus = none` and
`textContent = none` model the corresponding `page.evaluate` call raising
(swallowed by `except: pass`); a raised JS-error lookup is the empty list. -/
structure PageSignals where
  httpStatus : Option Nat
  pageContent : String
  textContent : Option String
  jsErrors : List String
  deriving Repr, DecidableEq

/-- The JavaScript-error check, last step of `_detect_page_error`. -/
def detectJsCheck (s : PageSignals) : Bool × String × Nat :=
  match s.jsErrors with
  | [] => (false, "", 0)
  | e :: _ => (true, "JavaScript error: " ++ e, 1)

/-- The body-content checks of `_detect_page_error`, parameterised by the
SQL-error hint analyzer (the source uses `_analyze_sql_error`). -/
def detect_page_error_content_with (hint : String → String) (s : PageSignals) :
    Bool × String × Nat :=
  if sqlErrorMatch s.pageContent then
    (true, "SQL error: " ++ hint s.pageContent, 3)
  else
    match errorPhrases.find? (fun ph => strContains s.pageContent ph) with
    | some ph => (true, "Page error: " ++ ph, 3)
    | none =>
      match s.textContent with
      | some txt => if txt = "" then (true, "Page content empty", 2) else detectJsCheck s
      | none => detectJsCheck s

/-- `_detect_page_error` with the hint analyzer as a parameter. -/
def detect_page_error_with (hint : String → String) (s : PageSignals) :
    Bool × String × Nat :=
  match s.httpStatus with
  | some status =>
    if status ≥ 400 then (true, "HTTP error: status code " ++ toString status, 3)
    else detect_page_error_content_with hint s
  | none => detect_page_error_content_with hint s

/-- `_detect_page_error()`: returns `(has_error, message, level)`. -/
def detect_page_error : PageSignals → Bool × String × Nat :=
  detect_page_error_with analyze_sql_error

/-- Is the HTTP-status check the deciding one? -/
def statusBad (s : PageSignals) : Bool :=
  match s.httpStatus with
  | some status => status ≥ 400
  | none => false

/-- Does the content contain a generic HTTP-error phrase? -/
def phraseHit (s : PageSignals) : Bool :=
  errorPhrases.any (fun ph => strContains s.pageContent ph)

/-- C3.  The rule-based classifier decides by the first matching case of the
fixed order (HTTP status ≥ 400, strict SQL signature, generic error phrase,
empty trimmed body, JS errors, no error) with severities 3/3/3/2/1/0, the
status code embedded in the first case's message; and the SQL-error-kind
analyzer contributes only the hint string, never the flag or the severity. -/
theorem page_error_priority :
    (∀ s : PageSignals,
      (∀ st, s.httpStatus = some st → 400 ≤ st →
        detect_page_error s = (true, "HTTP error: status code " ++ toString st, 3)) ∧
      (statusBad s = false → sqlErrorMatch s.pageContent = true →
        detect_page_error s = (true, "SQL error: " ++ analyze_sql_error s.pageContent, 3)) ∧
      (statusBad s = false → sqlErrorMatch s.pageContent = false →
        ∀ ph, errorPhrases.find? (fun p => strContains s.pageContent p) = some ph →
          detect_page_error s = (true, "Page error: " ++ ph, 3)) ∧
      (statusBad s = false → sqlErrorMatch s.pageContent = false → phraseHit s = false →
        s.textContent = some "" →
        detect_page_error s = (true, "Page content empty", 2)) ∧
      (statusBad s = false → sqlErrorMatch s.pageContent = false → phraseHit s = false →
        s.textContent ≠ some "" → ∀ e rest, s.jsErrors = e :: rest →
          detect_page_error s = (true, "JavaScript error: " ++ e, 1)) ∧
      (statusBad s = false → sqlErrorMatch s.pageContent = false → phraseHit s = false →
        s.textContent ≠ some "" → s.jsErrors = [] →
        detect_page_error s = (false, "", 0))) ∧
    (∀ (hint : String → String) (s : PageSignals),
      (detect_page_error_with hint s).1 = (detect_page_error s).1 ∧
      (detect_page_error_with hint s).2.2 = (detect_page_error s).2.2) := by
  constructor
  · intro s
    have hphrase : phraseHit s = false →
        errorPhrases.find? (fun p => strContains s.pageContent p) = none := by
      intro hp
      simp only [phraseHit] at hp
      rw [List.find?_eq_none]
      intro x hx
      exact List.any_eq_false.mp hp x hx
    refine ⟨?_, ?_, ?_, ?_, ?_, ?_⟩
    · intro st hst h400
      simp [detect_page_error, detect_page_error_with, hst, h400]
    · intro hsb hsql
      cases hst : s.httpStatus with
      | none =>
        simp [detect_page_error, detect_page_error_with, hst,
          detect_page_error_content_with, hsql]
      | some status =>
        have : ¬ status ≥ 400 := by
          simpa [statusBad, hst] using hsb
        simp [detect_page_error, detect_page_error_with, hst, this,
          detect_page_error_content_with, hsql]
    · intro hsb hsql ph hph
      cases hst : s.httpStatus with
      | none =>
        simp [detect_page_error, detect_page_error_with, hst,
          detect_page_error_content_with, hsql, hph]
      | some status =>
        have : ¬ status ≥ 400 := by
          simpa [statusBad, hst] using hsb
        simp [detect_page_error, detect_page_error_with, hst, this,
          detect_page_error_content_with, hsql, hph]
    · intro hsb hsql hp htxt
      cases hst : s.httpStatus with
      | none =>
        simp [detect_page_error, detect_page_error_with, hst,
          detect_page_error_content_with, hsql, hphrase hp, htxt]
      | some status =>
        have : ¬ status ≥ 400 := by
          simpa [statusBad, hst] using hsb
        simp [detect_page_error, detect_page_error_with, hst, this,
          detect_page_error_content_with, hsql, hphrase hp, htxt]
    · intro hsb hsql hp htxt e rest hjs
      have hj : detectJsCheck s = (true, "JavaScript error: " ++ e, 1) := by
        simp [detectJsCheck, hjs]
      cases hst : s.httpStatus with
      | none =>
        cases htc : s.textContent with
        | none =>
          simp [detect_page_error, detect_page_error_with, hst,
            detect_page_error_content_with, hsql, hphrase hp, htc, hj]
        | some txt =>
          have hne : txt ≠ "" := fun he => htxt (by rw [htc, he])
          simp [detect_page_error, detect_page_error_with, hst,
            detect_page_error_content_with, hsql, hphrase hp, htc, hne, hj]
      | some status =>
        have hlt : ¬ status ≥ 400 := by
          simpa [statusBad, hst] using hsb
        cases htc : s.textContent with
        | none =>
          simp [detect_page_error, detect_page_error_with, hst, hlt,
            detect_page_error_content_with, hsql, hphrase hp, htc, hj]
        | some txt =>
          have hne : txt ≠ "" := fun he => htxt (by rw [htc, he])
          simp [detect_page_error, detect_page_error_with, hst, hlt,
            detect_page_error_content_with, hsql, hphrase hp, htc, hne, hj]
    · intro hsb hsql hp htxt hjs
      have hj : detectJsCheck s = (false, "", 0) := by
        simp [detectJsCheck, hjs]
      cases hst : s.httpStatus with
      | none =>
        cases htc : s.textContent with
        | none =>
          simp [detect_page_error, detect_page_error_with, hst,
            detect_page_error_content_with, hsql, hphrase hp, htc, hj]
        | some txt =>
          have hne : txt ≠ "" := fun he => htxt (by rw [htc, he])
          simp [detect_page_error, detect_page_error_with, hst,
            detect_page_error_content_with, hsql, hphrase hp, htc, hne, hj]
      | some status =>
        have hlt : ¬ status ≥ 400 := by
          simpa [statusBad, hst] using hsb
        cases htc : s.textContent with
        | none =>
          simp [detect_page_error, detect_page_error_with, hst, hlt,
            detect_page_error_content_with, hsql, hphrase hp, htc, hj]
        | some txt =>
          have hne : txt ≠ "" := fun he => htxt (by rw [htc, he])
          simp [detect_page_error, detect_page_error_with, hst, hlt,
            detect_page_error_content_with, hsql, hphrase hp, htc, hne, hj]
  · intro hint s
    cases hst : s.httpStatus with
    | none =>
      by_cases hsql : sqlErrorMatch s.pageContent <;>
        simp [detect_page_error, detect_page_error_with,
          detect_page_error_content_with, hst, hsql]
    | some status =>
      by_cases h4 : status ≥ 400
      · simp [detect_page_error, detect_page_error_with, hst, h4]
      · by_cases hsql : sqlErrorMatch s.pageContent <;>
          simp [detect_page_error, detect_page_error_with,
            detect_page_error_content_with, hst, h4, hsql]

theorem page_error_priority_witness :
    detect_page_error ⟨some 404, "x", some "x", []⟩
      = (true, "HTTP error: status code 404", 3) :=
  (page_error_priority.1 ⟨some 404, "x", some "x", []⟩).1 404 rfl (by norm_num)

/-! ## Advisory oracle (`_ask_llm_about_page_state`, src/browser_use.py)

The LLM call is modelled by an environment: whether the API key is set,
whether `requests.post` raises, the HTTP status of the response, whether
parsing the response raises, whether the JSON has a non-empty `choices`
field, and the text of `choices[0].message.content`.  The return value
`(Option Bool × String)` mirrors the source's `(是否正常, 原因)` tuple, where
the first component is `None`/`True`/`False` in Python. -/

structure LlmEnv where
  apiKeyPresent : Bool
  requestRaises : Bool
  statusCode : Nat
  parseRaises : Bool
  hasChoices : Bool
  aiText : String
  deriving Repr, DecidableEq

/-- `s.split("\n")[0]`. -/
def firstLineList : List Char → List Char
  | [] => []
  | c :: rest => if c = Char.ofNat 10 then [] else c :: firstLineList rest

/-- First line of a string. -/
def firstLine (s : String) : String := String.mk (firstLineList s.toList)

/-- `normal_keywords` from the keyword fallback analysis. -/
def normalKeywords : List String :=
  [ "正常", "成功", "正确", "有效", "主页", "控制面板", "仪表盘"
  , "欢迎", "welcome", "dashboard", "菜单", "导航栏", "功能页面", "登录页" ]

/-- `error_keywords` from the keyword fallback analysis. -/
def errorKeywords : List String :=
  [ "错误", "失败", "异常", "无效", "sql错误", "syntax error"
  , "database error", "not found", "forbidden", "空白页面", "404", "500" ]

/-- The response-text analysis of `_ask_llm_about_page_state`: explicit
`状态:` markers first, then keyword matching on the lowered response, then a
last-resort scan of the page content itself. -/
def analyzeAiText (aiText pageContent : String) : Option Bool × String :=
  if strContains aiText "状态:正常" || strContains aiText "状态：正常" then
    (some true, firstLine aiText)
  else if strContains aiText "状态:错误" || strContains aiText "状态：错误" then
    (some false, firstLine aiText)
  else
    let lower := strToLower aiText
    let normalMatch := normalKeywords.any (fun k => strContains lower k)
    let errorMatch := errorKeywords.any (fun k => strContains lower k)
    if normalMatch && !errorMatch then
      (some true, "AI judged page state normal: " ++ firstLine aiText)
    else if errorMatch && !normalMatch then
      (some false, "AI judged page state abnormal: " ++ firstLine aiText)
    else if strContains pageContent "欢迎" || strContains pageContent "Welcome" then
      (some true, "page contains welcome text, judged normal")
    else if ["SQL syntax", "mysql_fetch", "未找到", "拒绝访问"].any
        (fun e => strContains pageContent e) then
      (some false, "page contains explicit error text, judged abnormal")
    else
      (none, "AI could not determine the page state, use rule-based judgment")

/-- `_ask_llm_about_page_state(page_content, screenshot)`.  Note which failure
paths return a determinate `False` and which return `None`: a missing API key,
a non-200 response, and a response without `choices` return `False`; an
exception around the HTTP request or while parsing the response is caught and
returns `None`. -/
def ask_llm_about_page_state (env : LlmEnv) (pageContent : String) :
    Option Bool × String :=
  if !env.apiKeyPresent then
    (some false, "cannot use the LLM to judge the page state, please use rule-based judgment")
  else if env.requestRaises then
    (none, "AI judgment request failed")
  else if env.statusCode ≠ 200 then
    (some false, "API request failed, use rule-based judgment")
  else if env.parseRaises then
    (none, "error while parsing the AI response")
  else if !env.hasChoices then
    (some false, "API response format error, use rule-based judgment")
  else analyzeAiText env.aiText pageContent

/-- The classification that drives recovery after a navigation or click in
`_execute_commands`: a determinate advisory verdict wins; only an
indeterminate one falls back to `_detect_page_error`. -/
inductive NavVerdict where
  | advisoryNormal (reason : String)
  | advisoryError (msg : String) (level : Nat)
  | ruleBased (result : Bool × String × Nat)
  deriving Repr, DecidableEq

/-- The post-action classification dispatch of `_execute_commands` (shared by
the `GOTO` and `CLICK` handlers). -/
def classify_after_action (env : LlmEnv) (pageContent : String)
    (signals : PageSignals) : NavVerdict :=
  match ask_llm_about_page_state env pageContent with
  | (some true, reason) => NavVerdict.advisoryNormal reason
  | (some false, reason) => NavVerdict.advisoryError ("AI detected page anomaly: " ++ reason) 3
  | (none, _) => NavVerdict.ruleBased (detect_page_error signals)

/-- An advisory environment with no API key configured; the page itself is
healthy. -/
def llmEnvNoKey : LlmEnv :=
  { apiKeyPresent := false, requestRaises := false, statusCode := 200
    parseRaises := false, hasChoices := true, aiText := "状态:正常" }

/-- Healthy page signals for the same scenario. -/
def healthySignals : PageSignals :=
  { httpStatus := some 200, pageContent := "main page", textContent := some "main page"
    jsErrors := [] }

/-- C1, counterexample.  With the advisory oracle unreachable for lack of
credentials, `_ask_llm_about_page_state` returns a determinate "abnormal"
verdict, the dispatch drives severity-3 recovery from that verdict, and the
rule-based evaluator — which classifies the same page as error-free — is never
run; so an advisory-call failure does not degrade to the rule-based
classifier and does yield a determinate verdict of its own. -/
theorem advisory_fallback_counterexample :
    (ask_llm_about_page_state llmEnvNoKey "main page").1 = some false ∧
    classify_after_action llmEnvNoKey "main page" healthySignals
      = NavVerdict.advisoryError
          ("AI detected page anomaly: cannot use the LLM to judge the page state, please use rule-based judgment") 3 ∧
    detect_page_error healthySignals = (false, "", 0) := by
  refine ⟨rfl, rfl, by decide⟩

/-- C1, amended.  The rule-based evaluator runs (and its result drives
recovery) exactly when the advisory verdict is indeterminate; an exception
around the HTTP request (network failure) or while parsing the response is
indeterminate, so those failures degrade to the rule-based classifier without
crashing; but a missing API key, a non-200 API response, or a response
missing `choices` each yield a determinate abnormal verdict, and then the
classification is independent of the page signals the rule evaluator would
read. -/
theorem advisory_fallback_amended :
    (∀ (env : LlmEnv) (pc : String) (signals : PageSignals),
      (ask_llm_about_page_state env pc).1 = none →
        classify_after_action env pc signals
          = NavVerdict.ruleBased (detect_page_error signals)) ∧
    (∀ (env : LlmEnv) (pc : String),
      env.apiKeyPresent = true → env.requestRaises = true →
        (ask_llm_about_page_state env pc).1 = none) ∧
    (∀ (env : LlmEnv) (pc : String),
      env.apiKeyPresent = true → env.requestRaises = false → env.statusCode = 200 →
      env.parseRaises = true →
        (ask_llm_about_page_state env pc).1 = none) ∧
    (∀ (env : LlmEnv) (pc : String),
      env.apiKeyPresent = false →
        (ask_llm_about_page_state env pc).1 = some false) ∧
    (∀ (env : LlmEnv) (pc : String),
      env.apiKeyPresent = true → env.requestRaises = false → env.statusCode ≠ 200 →
        (ask_llm_about_page_state env pc).1 = some false) ∧
    (∀ (env : LlmEnv) (pc : String),
      env.apiKeyPresent = true → env.requestRaises = false → env.statusCode = 200 →
      env.parseRaises = false → env.hasChoices = false →
        (ask_llm_about_page_state env pc).1 = some false) ∧
    (∀ (env : LlmEnv) (pc : String) (signals signals2 : PageSignals),
      (ask_llm_about_page_state env pc).1 ≠ none →
        classify_after_action env pc signals = classify_after_action env pc signals2) := by
  refine ⟨?_, ?_, ?_, ?_, ?_, ?_, ?_⟩
  · intro env pc signals hnone
    unfold classify_after_action
    rcases hq : ask_llm_about_page_state env pc with ⟨verdict, reason⟩
    rw [hq] at hnone
    simp only at hnone
    subst hnone
    rfl
  · intro env pc hkey hreq
    simp [ask_llm_about_page_state, hkey, hreq]
  · intro env pc hkey hreq hsc hparse
    simp [ask_llm_about_page_state, hkey, hreq, hsc, hparse]
  · intro env pc hkey
    simp [ask_llm_about_page_state, hkey]
  · intro env pc hkey hreq hsc
    simp [ask_llm_about_page_state, hkey, hreq, hsc]
  · intro env pc hkey hreq hsc hparse hch
    simp [ask_llm_about_page_state, hkey, hreq, hsc, hparse, hch]
  · intro env pc signals signals2 hdet
    unfold classify_after_action
    rcases hq : ask_llm_about_page_state env pc with ⟨verdict, reason⟩
    rw [hq] at hdet
    simp only at hdet
    cases verdict with
    | none => exact absurd rfl hdet
    | some b => cases b <;> rfl

/-- An advisory environment where the HTTP request itself raises. -/
def llmEnvNetFail : LlmEnv :=
  { apiKeyPresent := true, requestRaises := true, statusCode := 0
    parseRaises := false, hasChoices := false, aiText := "" }

theorem advisory_fallback_amended_witness :
    (ask_llm_about_page_state llmEnvNetFail "main page").1 = none ∧
    classify_after_action llmEnvNetFail "main page" healthySignals
      = NavVerdict.ruleBased (detect_page_error healthySignals) := by
  have h := advisory_fallback_amended.2.1 llmEnvNetFail "main page" rfl rfl
  exact ⟨h, advisory_fallback_amended.1 llmEnvNetFail "main page" healthySignals h⟩

/-! ## Recovery controller (`_handle_error_with_recovery`, src/browser_use.py)

The browser actions the controller issues (`page.goto(recovery_url)` and
`page.go_back()`) are modelled by an environment saying which of them would
succeed.  The `command_results` entries the controller appends are modelled
as tagged log entries so that the different kinds of output (error notice,
recovery progress, manual-recovery suggestion) stay distinguishable. -/

/-- The agent fields the controller reads. -/
structure AgentConfig where
  auto_recovery : Bool
  error_recovery_level : Nat
  deriving Repr, DecidableEq

/-- Outcome of the external browser calls, plus the current page URL. -/
structure RecoveryEnv where
  currentUrl : Option String
  gotoSucceeds : String → Bool
  goBackSucceeds : Bool

/-- The `command_results` entries `_handle_error_with_recovery` can append. -/
inductive LogEntry where
  | errorDetected (msg : String)
  | autoRecovering
  | recoveredTo (url : String)
  | recoveryFailed
  | wentBack
  | goBackFailed
  | strongSuggestion (url : String)
  | softSuggestion (s : String)
  deriving Repr, DecidableEq

/-- Is a log entry a manual-recovery suggestion? -/
def isSuggestionEntry : LogEntry → Bool
  | LogEntry.strongSuggestion _ => true
  | LogEntry.softSuggestion _ => true
  | _ => false

@[simp] theorem isSuggestionEntry_errorDetected (m : String) :
    isSuggestionEntry (LogEntry.errorDetected m) = false := rfl

@[simp] theorem isSuggestionEntry_autoRecovering :
    isSuggestionEntry LogEntry.autoRecovering = false := rfl

@[simp] theorem isSuggestionEntry_recoveredTo (u : String) :
    isSuggestionEntry (LogEntry.recoveredTo u) = false := rfl

@[simp] theorem isSuggestionEntry_recoveryFailed :
    isSuggestionEntry LogEntry.recoveryFailed = false := rfl

@[simp] theorem isSuggestionEntry_wentBack :
    isSuggestionEntry LogEntry.wentBack = false := rfl

@[simp] theorem isSuggestionEntry_goBackFailed :
    isSuggestionEntry LogEntry.goBackFailed = false := rfl

@[simp] theorem isSuggestionEntry_strong (u : String) :
    isSuggestionEntry (LogEntry.strongSuggestion u) = true := rfl

@[simp] theorem isSuggestionEntry_soft (m : String) :
    isSuggestionEntry (LogEntry.softSuggestion m) = true := rfl

/-- The controller's opening `mark_error` call (`if self.page and
self.page.url:`). -/
def recoveryMarked (env : RecoveryEnv) (t : BrowserStateTracker)
    (errorMsg : String) (ts : Nat) : BrowserStateTracker :=
  match env.currentUrl with
  | some u => if u ≠ "" then t.mark_error u errorMsg ts else t
  | none => t

/-- The suggestion block at the end of `_handle_error_with_recovery` (runs
whenever no recovery returned early). -/
def suggestTail (t1 : BrowserStateTracker) (errorLevel : Nat)
    (log : List LogEntry) : Bool × BrowserStateTracker × List LogEntry :=
  if errorLevel ≥ 2 then
    if BrowserStateTracker.optTruthy t1.get_recovery_url then
      (false, t1, log ++ [LogEntry.strongSuggestion (t1.get_recovery_url.getD "")])
    else (false, t1, log)
  else if errorLevel = 1 then
    if t1.get_suggestion ≠ "" then
      (false, t1, log ++ [LogEntry.softSuggestion t1.get_suggestion])
    else (false, t1, log)
  else (false, t1, log)

/-- `_handle_error_with_recovery(error_message, error_level, command_results)`:
returns whether recovery executed, the updated tracker and the appended log. -/
def handle_error_with_recovery (cfg : AgentConfig) (env : RecoveryEnv)
    (t : BrowserStateTracker) (errorMsg : String) (errorLevel : Nat)
    (ts : Nat := 0) : Bool × BrowserStateTracker × List LogEntry :=
  let t1 := recoveryMarked env t errorMsg ts
  let log0 := [LogEntry.errorDetected errorMsg]
  let shouldRecover := errorLevel ≥ cfg.error_recovery_level
  if cfg.auto_recovery && (shouldRecover || t1.should_auto_recover) then
    if errorLevel ≥ 3 || t1.consecutive_errors ≥ 2 then
      let ru := t1.get_recovery_url
      let log1 := log0 ++ [LogEntry.autoRecovering]
      if BrowserStateTracker.optTruthy ru then
        let u := ru.getD ""
        if env.gotoSucceeds u then (true, t1, log1 ++ [LogEntry.recoveredTo u])
        else
          let log2 := log1 ++ [LogEntry.recoveryFailed]
          if env.goBackSucceeds then (true, t1, log2 ++ [LogEntry.wentBack])
          else suggestTail t1 errorLevel (log2 ++ [LogEntry.goBackFailed])
      else
        if env.goBackSucceeds then (true, t1, log1 ++ [LogEntry.wentBack])
        else suggestTail t1 errorLevel (log1 ++ [LogEntry.goBackFailed])
    else suggestTail t1 errorLevel log0
  else suggestTail t1 errorLevel log0

/-- The combined condition under which the rollback attempt runs. -/
def attemptCond (cfg : AgentConfig) (t1 : BrowserStateTracker) (errorLevel : Nat) : Bool :=
  cfg.auto_recovery && ((errorLevel ≥ cfg.error_recovery_level) || t1.should_auto_recover)
    && ((errorLevel ≥ 3) || (t1.consecutive_errors ≥ 2))

/-- Whether one of the two rollback actions would succeed (navigate to the
recovery URL first, else go back). -/
def attemptSucceeds (env : RecoveryEnv) (t1 : BrowserStateTracker) : Bool :=
  (BrowserStateTracker.optTruthy t1.get_recovery_url
    && env.gotoSucceeds (t1.get_recovery_url.getD "")) || env.goBackSucceeds

/-- Everything external fails: both rollback actions error out. -/
def envAllFail : RecoveryEnv :=
  { currentUrl := some "http://site/p2"
    gotoSucceeds := fun _ => false
    goBackSucceeds := false }

/-- Default agent configuration (`auto_recovery=True`,
`error_recovery_level=3`). -/
def cfgDefault : AgentConfig := { auto_recovery := true, error_recovery_level := 3 }

/-- A tracker that has just seen one error and no stable page. -/
def trackerOneErr : BrowserStateTracker :=
  (BrowserStateTracker.init 10 true).mark_error "http://site/p1" "e1" 0

/-- C2, counterexample.  A level-0 classification with two consecutive errors
triggers the rollback attempt; when both the recovery navigation and the
go-back fail, the controller returns `recovered=false` but logs *no*
manual-recovery suggestion (the suggestion block is skipped entirely at
level 0), refuting "a manual-recovery suggestion is still logged". -/
theorem handle_error_suggestion_counterexample :
    (handle_error_with_recovery cfgDefault envAllFail trackerOneErr "boom" 0 0).1 = false ∧
    LogEntry.autoRecovering
      ∈ (handle_error_with_recovery cfgDefault envAllFail trackerOneErr "boom" 0 0).2.2 ∧
    LogEntry.goBackFailed
      ∈ (handle_error_with_recovery cfgDefault envAllFail trackerOneErr "boom" 0 0).2.2 ∧
    (handle_error_with_recovery cfgDefault envAllFail trackerOneErr "boom" 0 0).2.2.all
      (fun e => !isSuggestionEntry e) = true := by
  refine ⟨by decide, by decide, by decide, by decide⟩

/-! ### Case equations for `_handle_error_with_recovery` -/

theorem suggestTail_fst (t1 : BrowserStateTracker) (lvl : Nat) (log : List LogEntry) :
    (suggestTail t1 lvl log).1 = false := by
  unfold suggestTail
  split_ifs <;> rfl

theorem suggestTail_tracker (t1 : BrowserStateTracker) (lvl : Nat) (log : List LogEntry) :
    (suggestTail t1 lvl log).2.1 = t1 := by
  unfold suggestTail
  split_ifs <;> rfl

theorem suggestTail_mem (t1 : BrowserStateTracker) (lvl : Nat) (log : List LogEntry)
    (e : LogEntry) :
    e ∈ (suggestTail t1 lvl log).2.2 ↔ e ∈ log ∨
      (2 ≤ lvl ∧ BrowserStateTracker.optTruthy t1.get_recovery_url = true ∧
        e = LogEntry.strongSuggestion (t1.get_recovery_url.getD "")) ∨
      (¬2 ≤ lvl ∧ lvl = 1 ∧ t1.get_suggestion ≠ "" ∧
        e = LogEntry.softSuggestion t1.get_suggestion) := by
  unfold suggestTail
  split_ifs with h2 hT h1 hs <;> simp_all

theorem handle_no_attempt (cfg : AgentConfig) (env : RecoveryEnv)
    (t : BrowserStateTracker) (msg : String) (lvl ts : Nat)
    (hC : attemptCond cfg (recoveryMarked env t msg ts) lvl = false) :
    handle_error_with_recovery cfg env t msg lvl ts
      = suggestTail (recoveryMarked env t msg ts) lvl [LogEntry.errorDetected msg] := by
  simp only [handle_error_with_recovery]
  unfold attemptCond at hC
  rcases Bool.and_eq_false_iff.mp hC with hX | hY
  · rw [if_neg (by simp [hX])]
  · by_cases hX : (cfg.auto_recovery
        && (decide (lvl ≥ cfg.error_recovery_level)
            || (recoveryMarked env t msg ts).should_auto_recover)) = true
    · rw [if_pos hX, if_neg (by simp [hY])]
    · rw [if_neg hX]

theorem handle_goto_ok (cfg : AgentConfig) (env : RecoveryEnv)
    (t : BrowserStateTracker) (msg : String) (lvl ts : Nat)
    (hC : attemptCond cfg (recoveryMarked env t msg ts) lvl = true)
    (hT : BrowserStateTracker.optTruthy (recoveryMarked env t msg ts).get_recovery_url = true)
    (hG : env.gotoSucceeds ((recoveryMarked env t msg ts).get_recovery_url.getD "") = true) :
    handle_error_with_recovery cfg env t msg lvl ts
      = (true, recoveryMarked env t msg ts,
          [LogEntry.errorDetected msg, LogEntry.autoRecovering,
           LogEntry.recoveredTo ((recoveryMarked env t msg ts).get_recovery_url.getD "")]) := by
  unfold attemptCond at hC
  rw [Bool.and_eq_true] at hC
  obtain ⟨hX, hY⟩ := hC
  simp only [handle_error_with_recovery]
  rw [if_pos hX, if_pos hY, if_pos hT, if_pos hG]
  rfl

theorem handle_goto_fail_back_ok (cfg : AgentConfig) (env : RecoveryEnv)
    (t : BrowserStateTracker) (msg : String) (lvl ts : Nat)
    (hC : attemptCond cfg (recoveryMarked env t msg ts) lvl = true)
    (hT : BrowserStateTracker.optTruthy (recoveryMarked env t msg ts).get_recovery_url = true)
    (hG : env.gotoSucceeds ((recoveryMarked env t msg ts).get_recovery_url.getD "") = false)
    (hK : env.goBackSucceeds = true) :
    handle_error_with_recovery cfg env t msg lvl ts
      = (true, recoveryMarked env t msg ts,
          [LogEntry.errorDetected msg, LogEntry.autoRecovering,
           LogEntry.recoveryFailed, LogEntry.wentBack]) := by
  unfold attemptCond at hC
  rw [Bool.and_eq_true] at hC
  obtain ⟨hX, hY⟩ := hC
  simp only [handle_error_with_recovery]
  rw [if_pos hX, if_pos hY, if_pos hT, if_neg (by simp [hG]), if_pos hK]
  rfl

theorem handle_goto_fail_back_fail (cfg : AgentConfig) (env : RecoveryEnv)
    (t : BrowserStateTracker) (msg : String) (lvl ts : Nat)
    (hC : attemptCond cfg (recoveryMarked env t msg ts) lvl = true)
    (hT : BrowserStateTracker.optTruthy (recoveryMarked env t msg ts).get_recovery_url = true)
    (hG : env.gotoSucceeds ((recoveryMarked env t msg ts).get_recovery_url.getD "") = false)
    (hK : env.goBackSucceeds = false) :
    handle_error_with_recovery cfg env t msg lvl ts
      = suggestTail (recoveryMarked env t msg ts) lvl
          [LogEntry.errorDetected msg, LogEntry.autoRecovering,
           LogEntry.recoveryFailed, LogEntry.goBackFailed] := by
  unfold attemptCond at hC
  rw [Bool.and_eq_true] at hC
  obtain ⟨hX, hY⟩ := hC
  simp only [handle_error_with_recovery]
  rw [if_pos hX, if_pos hY, if_pos hT, if_neg (by simp [hG]), if_neg (by simp [hK])]
  rfl

theorem handle_no_url_back_ok (cfg : AgentConfig) (env : RecoveryEnv)
    (t : BrowserStateTracker) (msg : String) (lvl ts : Nat)
    (hC : attemptCond cfg (recoveryMarked env t msg ts) lvl = true)
    (hT : BrowserStateTracker.optTruthy (recoveryMarked env t msg ts).get_recovery_url = false)
    (hK : env.goBackSucceeds = true) :
    handle_error_with_recovery cfg env t msg lvl ts
      = (true, recoveryMarked env t msg ts,
          [LogEntry.errorDetected msg, LogEntry.autoRecovering, LogEntry.wentBack]) := by
  unfold attemptCond at hC
  rw [Bool.and_eq_true] at hC
  obtain ⟨hX, hY⟩ := hC
  simp only [handle_error_with_recovery]
  rw [if_pos hX, if_pos hY, if_neg (by simp [hT]), if_pos hK]
  rfl

theorem handle_no_url_back_fail (cfg : AgentConfig) (env : RecoveryEnv)
    (t : BrowserStateTracker) (msg : String) (lvl ts : Nat)
    (hC : attemptCond cfg (recoveryMarked env t msg ts) lvl = true)
    (hT : BrowserStateTracker.optTruthy (recoveryMarked env t msg ts).get_recovery_url = false)
    (hK : env.goBackSucceeds = false) :
    handle_error_with_recovery cfg env t msg lvl ts
      = suggestTail (recoveryMarked env t msg ts) lvl
          [LogEntry.errorDetected msg, LogEntry.autoRecovering, LogEntry.goBackFailed] := by
  unfold attemptCond at hC
  rw [Bool.and_eq_true] at hC
  obtain ⟨hX, hY⟩ := hC
  simp only [handle_error_with_recovery]
  rw [if_pos hX, if_pos hY, if_neg (by simp [hT]), if_neg (by simp [hK])]
  rfl

/-- C2, amended.  After the opening `mark_error`, the rollback attempt runs
iff auto-recovery is on AND (level ≥ threshold OR `should_auto_recover`) AND
(level ≥ 3 OR `consecutive_errors ≥ 2`); the attempt navigates to the
recovery URL first when it is non-null, falls back to a browser go-back on
failure or absence, and the first success returns `recovered=true`; if both
fail the call returns `recovered=false`, and a manual-recovery suggestion is
then logged only when level ≥ 2 with a non-null recovery URL, or level = 1
with a non-empty tracker suggestion. -/
theorem handle_error_recovery_amended (cfg : AgentConfig) (env : RecoveryEnv)
    (t : BrowserStateTracker) (msg : String) (lvl ts : Nat)
    (t1 : BrowserStateTracker) (res : Bool × BrowserStateTracker × List LogEntry)
    (ht1 : t1 = recoveryMarked env t msg ts)
    (hres : res = handle_error_with_recovery cfg env t msg lvl ts) :
    res.2.1 = t1 ∧
    ((LogEntry.autoRecovering ∈ res.2.2) ↔ attemptCond cfg t1 lvl = true) ∧
    res.1 = (attemptCond cfg t1 lvl && attemptSucceeds env t1) ∧
    ((LogEntry.recoveredTo (t1.get_recovery_url.getD "") ∈ res.2.2) ↔
      (attemptCond cfg t1 lvl = true ∧
       BrowserStateTracker.optTruthy t1.get_recovery_url = true ∧
       env.gotoSucceeds (t1.get_recovery_url.getD "") = true)) ∧
    ((LogEntry.wentBack ∈ res.2.2) ↔
      (attemptCond cfg t1 lvl = true ∧
       ¬(BrowserStateTracker.optTruthy t1.get_recovery_url = true ∧
         env.gotoSucceeds (t1.get_recovery_url.getD "") = true) ∧
       env.goBackSucceeds = true)) ∧
    ((∃ e ∈ res.2.2, isSuggestionEntry e = true) ↔
      (¬(attemptCond cfg t1 lvl = true ∧ attemptSucceeds env t1 = true) ∧
       ((2 ≤ lvl ∧ BrowserStateTracker.optTruthy t1.get_recovery_url = true) ∨
        (lvl = 1 ∧ t1.get_suggestion ≠ "")))) := by
  subst ht1 hres
  by_cases hC : attemptCond cfg (recoveryMarked env t msg ts) lvl = true
  · by_cases hT : BrowserStateTracker.optTruthy
        (recoveryMarked env t msg ts).get_recovery_url = true
    · by_cases hG : env.gotoSucceeds
          ((recoveryMarked env t msg ts).get_recovery_url.getD "") = true
      · rw [handle_goto_ok cfg env t msg lvl ts hC hT hG]
        simp [hC, hT, hG, attemptSucceeds, isSuggestionEntry]
      · by_cases hK : env.goBackSucceeds = true
        · rw [handle_goto_fail_back_ok cfg env t msg lvl ts hC hT
            (by simpa using hG) hK]
          simp [hC, hT, hG, hK, attemptSucceeds, isSuggestionEntry]
        · rw [handle_goto_fail_back_fail cfg env t msg lvl ts hC hT
            (by simpa using hG) (by simpa using hK)]
          simp [hC, hT, hG, hK, attemptSucceeds,
            suggestTail_fst, suggestTail_tracker, suggestTail_mem]
          constructor
          · rintro ⟨e, h, hsugg⟩
            rcases h with (rfl | rfl | rfl | rfl) | ⟨h2, rfl⟩ | ⟨hlt, h1, hs, rfl⟩
            · simp at hsugg
            · simp at hsugg
            · simp at hsugg
            · simp at hsugg
            · exact Or.inl h2
            · exact Or.inr ⟨h1, hs⟩
          · rintro (h2 | ⟨h1, hs⟩)
            · exact ⟨_, Or.inr (Or.inl ⟨h2, rfl⟩), rfl⟩
            · exact ⟨_, Or.inr (Or.inr ⟨by omega, h1, hs, rfl⟩), rfl⟩
    · by_cases hK : env.goBackSucceeds = true
      · rw [handle_no_url_back_ok cfg env t msg lvl ts hC (by simpa using hT) hK]
        simp [hC, hT, hK, attemptSucceeds, isSuggestionEntry]
      · rw [handle_no_url_back_fail cfg env t msg lvl ts hC (by simpa using hT)
          (by simpa using hK)]
        simp [hC, hT, hK, attemptSucceeds,
          suggestTail_fst, suggestTail_tracker, suggestTail_mem]
        constructor
        · rintro ⟨e, h, hsugg⟩
          rcases h with (rfl | rfl | rfl) | ⟨hlt, h1, hs, rfl⟩
          · simp at hsugg
          · simp at hsugg
          · simp at hsugg
          · exact ⟨h1, hs⟩
        · rintro ⟨h1, hs⟩
          exact ⟨_, Or.inr ⟨by omega, h1, hs, rfl⟩, rfl⟩
  · rw [handle_no_attempt cfg env t msg lvl ts (by simpa using hC)]
    simp [hC, attemptSucceeds,
      suggestTail_fst, suggestTail_tracker, suggestTail_mem]
    constructor
    · rintro ⟨e, h, hsugg⟩
      rcases h with ⟨h2, hTu, rfl⟩ | ⟨hlt, h1, hs, rfl⟩
      · exact Or.inl ⟨h2, hTu⟩
      · exact Or.inr ⟨h1, hs⟩
    · rintro (⟨h2, hTu⟩ | ⟨h1, hs⟩)
      · exact ⟨_, Or.inl ⟨h2, hTu, rfl⟩, rfl⟩
      · exact ⟨_, Or.inr ⟨by omega, h1, hs, rfl⟩, rfl⟩

/-- An environment where the recovery navigation succeeds. -/
def envGotoOk : RecoveryEnv :=
  { currentUrl := some "http://site/p2"
    gotoSucceeds := fun _ => true
    goBackSucceeds := false }

theorem handle_error_recovery_amended_witness :
    (handle_error_with_recovery cfgDefault envGotoOk trackerOneErr "boom" 3 0).1 =
      (attemptCond cfgDefault (recoveryMarked envGotoOk trackerOneErr "boom" 0) 3 &&
       attemptSucceeds envGotoOk (recoveryMarked envGotoOk trackerOneErr "boom" 0)) :=
  (handle_error_recovery_amended cfgDefault envGotoOk trackerOneErr "boom" 3 0
    (recoveryMarked envGotoOk trackerOneErr "boom" 0)
    (handle_error_with_recovery cfgDefault envGotoOk trackerOneErr "boom" 3 0)
    rfl rfl).2.2.1

/-! ## SQL injection tester (src/modules/testers/sql_injection.py)

The browser interaction of one probe (`_input_and_submit`, a short sleep,
`get_page_text`, then `page.go_back()` to restore the baseline) is modelled
by a response oracle `resp : String → String` from submitted payload to
observed page text; the go-back restore is what justifies treating the
oracle as a function of the payload alone.  Each probe function also
returns the list of payloads it submitted, in order, so that "no further
probe is issued" is a statement about the trace. -/

/-- `self.payloads["boolean_based"]`. -/
def booleanPayloads : List String :=
  [ "1" ++ sq ++ " AND " ++ sq ++ "1" ++ sq ++ "=" ++ sq ++ "1"
  , "1" ++ sq ++ " AND " ++ sq ++ "1" ++ sq ++ "=" ++ sq ++ "2"
  , "1 AND 1=1"
  , "1 AND 1=2" ]

/-- `self.payloads["error_based"]`. -/
def errorBasedPayloads : List String :=
  [ sq, "\"", "\\", "1" ++ sq, "1\"", "1)" ]

/-- The `error_keywords` list of `_test_error_injection`. -/
def sqlErrorKeywords : List String :=
  [ "sql syntax", "syntax error", "unclosed quotation", "unterminated string"
  , "mysql_fetch", "mysql error", "sql error", "odbc error", "oracle error"
  , "incorrect syntax", "unexpected token", "unexpected end", "invalid query"
  , "database error" ]

/-- The three closure bases tried by the `ORDER BY` discovery loop. -/
def orderByBases : List String :=
  [ sq ++ " ORDER BY", "\" ORDER BY", ") ORDER BY" ]

/-- `f"{base} {i}-- "`. -/
def orderByPayload (base : String) (i : Nat) : String :=
  base ++ " " ++ toString i ++ "-- "

/-- The error indicator of the discovery loop:
`any(keyword in content.lower() for keyword in ["error", "unknown", "invalid"])`. -/
def unionErrorIndicator (content : String) : Bool :=
  ["error", "unknown", "invalid"].any (fun k => strContains (strToLower content) k)

/-- Does some `ORDER BY i` closure-base probe come back as an error? -/
def errAt (resp : String → String) (i : Nat) : Bool :=
  orderByBases.any (fun b => unionErrorIndicator (resp (orderByPayload b i)))

/-- The payloads the inner base loop submits at step `i` (it stops at the
first base whose response is an error). -/
def basesProbe (resp : String → String) (i : Nat) : List String → List String
  | [] => []
  | b :: rest =>
    let p := orderByPayload b i
    if unionErrorIndicator (resp p) then [p]
    else p :: basesProbe resp i rest

/-- One outcome of a technique test: the oracle verdict, the confirming
payload, and the submitted-payload trace. -/
structure TechResult where
  vulnerable : Bool
  payload : String
  submitted : List String
  deriving Repr, DecidableEq

/-- The boolean oracle of `_test_boolean_injection`: contents differ, and
either the length delta exceeds 50 or the false branch carries a
"no results" marker. -/
def boolOracleHit (tContent fContent : String) : Bool :=
  tContent ≠ fContent &&
    (((tContent.length : Int) - (fContent.length : Int) > 50) ||
     strContains (strToLower fContent) "no results")

/-- The payload pairs `_test_boolean_injection` walks
(`range(0, len, 2)` over `boolean_based`). -/
def boolPairs : List (String × String) :=
  [ (booleanPayloads.getD 0 "", booleanPayloads.getD 1 "")
  , (booleanPayloads.getD 2 "", booleanPayloads.getD 3 "") ]

/-- The pair loop of `_test_boolean_injection`. -/
def boolLoop (resp : String → String) : List (String × String) → List String → TechResult
  | [], submitted => ⟨false, "", submitted⟩
  | (tp, fp) :: rest, submitted =>
    let tContent := resp tp
    let fContent := resp fp
    if boolOracleHit tContent fContent then ⟨true, tp, submitted ++ [tp, fp]⟩
    else boolLoop resp rest (submitted ++ [tp, fp])

/-- `_test_boolean_injection`. -/
def test_boolean_injection (resp : String → String) : TechResult :=
  boolLoop resp boolPairs []

/-- The payload loop of `_test_error_injection`. -/
def errorLoop (resp : String → String) : List String → List String → TechResult
  | [], submitted => ⟨false, "", submitted⟩
  | p :: rest, submitted =>
    if sqlErrorKeywords.any (fun k => strContains (strToLower (resp p)) k) then
      ⟨true, p, submitted ++ [p]⟩
    else errorLoop resp rest (submitted ++ [p])

/-- `_test_error_injection`. -/
def test_error_injection (resp : String → String) : TechResult :=
  errorLoop resp errorBasedPayloads []

/-- The `ORDER BY` column-discovery loop of `_test_union_injection`:
`column_count = i - 1` is written at the first erroring `i`, but the outer
loop only stops once `column_count > 0`, so an error at `i = 1` does not end
the scan.  Returns the detected count and the submitted trace. -/
def columnLoop (resp : String → String) : Nat → Nat → Nat × List String
  | 0, _ => (0, [])
  | fuel + 1, i =>
    let tried := basesProbe resp i orderByBases
    if errAt resp i then
      if i - 1 > 0 then (i - 1, tried)
      else
        let r := columnLoop resp fuel (i + 1)
        (r.1, tried ++ r.2)
    else
      let r := columnLoop resp fuel (i + 1)
      (r.1, tried ++ r.2)

/-- The column count the discovery loop reports (`max_columns = 10`,
`for i in range(1, max_columns + 1)`). -/
def findColumnCount (resp : String → String) : Nat :=
  (columnLoop resp 10 1).1

/-- Comma-join (`",".join(...)`). -/
def joinComma : List String → String
  | [] => ""
  | [x] => x
  | x :: rest => x ++ "," ++ joinComma rest

/-- Result of `_test_union_injection`: verdict, payload, detected column
count (only set when reflection confirms), and trace. -/
structure UnionResult where
  vulnerable : Bool
  payload : String
  columns : Nat
  submitted : List String
  deriving Repr, DecidableEq

/-- `_test_union_injection`. -/
def test_union_injection (resp : String → String) (original : String) : UnionResult :=
  let disc := columnLoop resp 10 1
  let columnCount := disc.1
  if columnCount > 0 then
    let unionValues := joinComma ((List.range columnCount).map (fun k => toString (k + 1)))
    let unionPayload := sq ++ " UNION SELECT " ++ unionValues ++ "-- "
    let unionContent := resp unionPayload
    if (List.range columnCount).any (fun k =>
        strContains unionContent (toString (k + 1)) &&
        !strContains original (toString (k + 1))) then
      ⟨true, unionPayload, columnCount, disc.2 ++ [unionPayload]⟩
    else ⟨false, "", 0, disc.2 ++ [unionPayload]⟩
  else ⟨false, "", 0, disc.2⟩

/-- Result of `_test_input_point`: the verdict, the input point's
`vulnerability_types` afterwards, and the full submitted trace. -/
structure InputPointResult where
  injectable : Bool
  vulnerability_types : List String
  submitted : List String
  deriving Repr, DecidableEq

/-- `_test_input_point`: boolean first, then error-based, then union-based,
returning at the first confirmed technique. -/
def test_input_point (resp : String → String) (original : String) : InputPointResult :=
  let b := test_boolean_injection resp
  if b.vulnerable then
    ⟨true, ["sql_injection_boolean"], b.submitted⟩
  else
    let e := test_error_injection resp
    if e.vulnerable then
      ⟨true, ["sql_injection_error"], b.submitted ++ e.submitted⟩
    else
      let u := test_union_injection resp original
      if u.vulnerable then
        ⟨true, ["sql_injection_union"], b.submitted ++ e.submitted ++ u.submitted⟩
      else
        ⟨false, [], b.submitted ++ e.submitted ++ u.submitted⟩

/-- The first `N ∈ [1, 10]` whose `ORDER BY N` probe errors. -/
def leastFailing (resp : String → String) : Option Nat :=
  (List.range' 1 10).find? (fun i => errAt resp i)

/-- An oracle for which every probe comes back as an error page. -/
def respAllError : String → String := fun _ => "error"

/-- C4, counterexample.  When `ORDER BY 1` itself errors, the first failing
`N` is 1, but the discovery loop reports 1 (the `column_count = 0` written at
`i = 1` does not stop the outer loop, which then stops at `i = 2` with
`column_count = 1`), not `N - 1 = 0`. -/
theorem union_column_discovery_counterexample :
    leastFailing respAllError = some 1 ∧
    findColumnCount respAllError = 1 ∧
    ¬ findColumnCount respAllError = 1 - 1 := by
  refine ⟨by decide, by decide, by decide⟩

theorem columnLoop_hit (resp : String → String) (fuel i : Nat) (h2 : 2 ≤ i)
    (he : errAt resp i = true) :
    (columnLoop resp (fuel + 1) i).1 = i - 1 := by
  simp only [columnLoop]
  rw [if_pos he, if_pos (by omega)]

theorem columnLoop_skip (resp : String → String) (fuel i : Nat)
    (he : errAt resp i = false) :
    (columnLoop resp (fuel + 1) i).1 = (columnLoop resp fuel (i + 1)).1 := by
  simp [columnLoop, he]

theorem columnLoop_run (resp : String → String) (k : Nat) (h2 : 2 ≤ k)
    (hk : errAt resp k = true) :
    ∀ fuel i, i ≤ k → k < i + fuel →
      (∀ j, i ≤ j → j < k → errAt resp j = false) →
      (columnLoop resp fuel i).1 = k - 1 := by
  intro fuel
  induction fuel with
  | zero => intro i h1 h2' _; omega
  | succ f ih =>
    intro i hik hlt hpre
    by_cases hek : i = k
    · subst hek
      exact columnLoop_hit resp f i h2 hk
    · have hei : errAt resp i = false := hpre i le_rfl (by omega)
      rw [columnLoop_skip resp f i hei]
      exact ih (i + 1) (by omega) (by omega) (fun j hj1 hj2 => hpre j (by omega) hj2)

theorem columnLoop_clean (resp : String → String) :
    ∀ fuel i, (∀ j, i ≤ j → j < i + fuel → errAt resp j = false) →
      (columnLoop resp fuel i).1 = 0 := by
  intro fuel
  induction fuel with
  | zero => intro i _; simp [columnLoop]
  | succ f ih =>
    intro i h
    have hei : errAt resp i = false := h i le_rfl (by omega)
    rw [columnLoop_skip resp f i hei]
    exact ih (i + 1) (fun j hj1 hj2 => h j (by omega) (by omega))

/-- C4, amended.  The discovery loop walks `ORDER BY N` from `N = 1` up to
10 and reports `N - 1` at the first failing `N` *provided that first failing
`N` is at least 2*; with no failing `N` up to the bound it reports 0; and in
the spec's scenario (success for `N ≤ 3`, error for `N ≥ 4`) it reports 3.
(When `ORDER BY 1` itself fails the loop keeps scanning instead of
reporting 0 — see the counterexample.) -/
theorem union_column_discovery_amended :
    (∀ (resp : String → String) (k : Nat), 2 ≤ k → k ≤ 10 →
      (∀ j, 1 ≤ j → j < k → errAt resp j = false) → errAt resp k = true →
      findColumnCount resp = k - 1) ∧
    (∀ resp : String → String, (∀ j, 1 ≤ j → j ≤ 10 → errAt resp j = false) →
      findColumnCount resp = 0) ∧
    (∀ resp : String → String,
      (∀ j ∈ List.range' 1 3, errAt resp j = false) →
      (∀ j ∈ List.range' 4 7, errAt resp j = true) →
      findColumnCount resp = 3) := by
  refine ⟨?_, ?_, ?_⟩
  · intro resp k h2 h10 hpre hk
    exact columnLoop_run resp k h2 hk 10 1 (by omega) (by omega)
      (fun j hj1 hj2 => hpre j hj1 hj2)
  · intro resp h
    exact columnLoop_clean resp 10 1 (fun j hj1 hj2 => h j hj1 (by omega))
  · intro resp hlow hhigh
    have h4 : errAt resp 4 = true := hhigh 4 (by decide)
    have hrun := columnLoop_run resp 4 (by omega) h4 10 1 (by omega) (by omega)
      (fun j hj1 hj2 => hlow j (by rw [List.mem_range'_1]; omega))
    simpa [findColumnCount] using hrun

/-- An oracle where `ORDER BY N` succeeds exactly for `N ∈ {1, 2, 3}`. -/
def respUpTo3 : String → String := fun p =>
  if strContains p " 1-- " || strContains p " 2-- " || strContains p " 3-- " then
    "rows found"
  else "error"

theorem union_column_discovery_amended_witness :
    findColumnCount respUpTo3 = 3 :=
  union_column_discovery_amended.2.2 respUpTo3 (by decide) (by decide)

/-! ### Boolean-technique priority (C5) -/

theorem boolLoop_submitted (resp : String → String) :
    ∀ (pairs : List (String × String)) (acc : List String) (p : String),
      p ∈ (boolLoop resp pairs acc).submitted →
      p ∈ acc ∨ ∃ q ∈ pairs, p = q.1 ∨ p = q.2 := by
  intro pairs
  induction pairs with
  | nil =>
    intro acc p hp
    simp only [boolLoop] at hp
    exact Or.inl hp
  | cons q rest ih =>
    intro acc p hp
    rcases q with ⟨tp, fp⟩
    simp only [boolLoop] at hp
    by_cases hhit : boolOracleHit (resp tp) (resp fp) = true
    · rw [if_pos hhit] at hp
      simp only [List.mem_append, List.mem_cons, List.mem_singleton] at hp
      rcases hp with hp | hp | hp | hp
      · exact Or.inl hp
      · exact Or.inr ⟨(tp, fp), List.mem_cons_self _ _, Or.inl hp⟩
      · exact Or.inr ⟨(tp, fp), List.mem_cons_self _ _, Or.inr hp⟩
      · exact absurd hp (by simp)
    · rw [if_neg hhit] at hp
      rcases ih (acc ++ [tp, fp]) p hp with h | ⟨q', hq', hqq⟩
      · simp only [List.mem_append, List.mem_cons, List.mem_singleton] at h
        rcases h with h | h | h | h
        · exact Or.inl h
        · exact Or.inr ⟨(tp, fp), List.mem_cons_self _ _, Or.inl h⟩
        · exact Or.inr ⟨(tp, fp), List.mem_cons_self _ _, Or.inr h⟩
        · exact absurd h (by simp)
      · exact Or.inr ⟨q', List.mem_cons_of_mem _ hq', hqq⟩

/-- C5.  When an input point's responses satisfy both the boolean and the
error-based oracle, `_test_input_point` records exactly the boolean tag and
returns before the error-based and union-based tests run: the submitted trace
is the boolean test's trace, and every payload issued belongs to the
boolean payload list (so no error probe and no `ORDER BY`/`UNION` probe is
ever sent for that point). -/
theorem boolean_priority (resp : String → String) (original : String)
    (hb : (test_boolean_injection resp).vulnerable = true)
    (he : (test_error_injection resp).vulnerable = true) :
    (test_input_point resp original).injectable = true ∧
    (test_input_point resp original).vulnerability_types = ["sql_injection_boolean"] ∧
    (test_input_point resp original).submitted = (test_boolean_injection resp).submitted ∧
    (∀ p ∈ (test_input_point resp original).submitted, p ∈ booleanPayloads) := by
  have hmain : test_input_point resp original =
      ⟨true, ["sql_injection_boolean"], (test_boolean_injection resp).submitted⟩ := by
    unfold test_input_point
    rw [if_pos hb]
  refine ⟨by rw [hmain], by rw [hmain], by rw [hmain], ?_⟩
  rw [hmain]
  intro p hp
  rcases boolLoop_submitted resp boolPairs [] p hp with h | ⟨q, hq, hqq⟩
  · simp at h
  · simp only [boolPairs, List.mem_cons, List.mem_singleton] at hq
    rcases hq with rfl | rfl | h
    · rcases hqq with rfl | rfl <;> decide
    · rcases hqq with rfl | rfl <;> decide
    · simp at h

/-- An oracle whose responses satisfy both the boolean oracle (the false
branch answers "no results") and the error oracle (everything else echoes a
MySQL syntax error). -/
def respBothOracles : String → String := fun p =>
  if p = "1" ++ sq ++ " AND " ++ sq ++ "1" ++ sq ++ "=" ++ sq ++ "2" then "no results"
  else "You have an error in your SQL syntax"

theorem boolean_priority_witness :
    (test_input_point respBothOracles "Welcome").vulnerability_types
      = ["sql_injection_boolean"] :=
  (boolean_priority respBothOracles "Welcome" (by decide) (by decide)).2.1

/-! ## Command-batch executor (`_execute_commands`, src/browser_use.py)

One batch iteration walks the command list; the `GOTO` and `CLICK` handlers
run the post-action classification (advisory first, rule-based on
indeterminate) and, on an anomaly, `_handle_error_with_recovery`; when that
call reports recovery executed, the loop `break`s, discarding the remaining
commands.  Per-command browser outcomes are supplied by a `CommandWorld`.
The handlers for `TYPE`/`SELECT`/`ENTER`/`SCROLL`/`WAIT`/`THINK`/`REFRESH`
only append outcome entries and never set the recovery flag; their entry
text (and the click fallback-selector retries, which likewise only append
entries) is abstracted to `generic` entries. -/

/-- The verbs `_execute_commands` dispatches on. -/
inductive Command where
  | goto (url : String)
  | click (selector : String)
  | typeInto (selector text : String)
  | selectOpt (args : String)
  | enter
  | scrolldown (px : String)
  | scrollup (px : String)
  | wait (ms : String)
  | think (text : String)
  | back
  | refresh
  | screenshot
  | unknown (raw : String)
  deriving Repr, DecidableEq

/-- External outcomes for one command: whether the primitive action succeeds,
the advisory environment and page data for the post-action classification,
and the recovery environment for `_handle_error_with_recovery`. -/
structure CommandWorld where
  actionSucceeds : Bool
  llm : LlmEnv
  pageContent : String
  signals : PageSignals
  preUrl : Option String
  postUrl : Option String
  pageTitle : String
  recovery : RecoveryEnv
  fallbackLog : List String
  ts : Nat

/-- One entry of the batch outcome log (`command_results`). -/
inductive BatchEntry where
  | navOk (url : String)
  | navFailed (url : String)
  | navSuggestion (url : String)
  | clickOk (selector : String)
  | clickFailed (selector : String)
  | generic (txt : String)
  | fromRecovery (e : LogEntry)
  deriving Repr, DecidableEq

/-- Record a URL as stable when it is real (`if self.page and self.page.url
and self.page.url != "about:blank"`). -/
def recordIfReal (t : BrowserStateTracker) (u : Option String) (title : String)
    (ts : Nat) : BrowserStateTracker :=
  match u with
  | some url => if url ≠ "" ∧ url ≠ "about:blank" then t.record_url url true title ts else t
  | none => t

/-- Run the recovery controller and splice its log into the batch entries. -/
def recoveryStep (cfg : AgentConfig) (w : CommandWorld) (t0 : BrowserStateTracker)
    (okEntries : List BatchEntry) (msg : String) (lvl : Nat) :
    List BatchEntry × BrowserStateTracker × Bool :=
  let r := handle_error_with_recovery cfg w.recovery t0 msg lvl w.ts
  (okEntries ++ r.2.2.map BatchEntry.fromRecovery, r.2.1, r.1)

/-- The shared post-action classification-and-recovery block of the `GOTO`
and `CLICK` handlers.  `stableTracker` is the tracker to keep when the page
is judged normal (the handlers differ in which URL they record as stable). -/
def afterActionCheck (cfg : AgentConfig) (t0 : BrowserStateTracker)
    (w : CommandWorld) (okEntries : List BatchEntry)
    (stableTracker : BrowserStateTracker) :
    List BatchEntry × BrowserStateTracker × Bool :=
  match ask_llm_about_page_state w.llm w.pageContent with
  | (some true, _) => (okEntries, stableTracker, false)
  | (some false, reason) =>
    recoveryStep cfg w t0 okEntries ("AI detected page anomaly: " ++ reason) 3
  | (none, _) =>
    let d := detect_page_error w.signals
    if d.1 then recoveryStep cfg w t0 okEntries d.2.1 d.2.2
    else (okEntries, stableTracker, false)

/-- Execute one command: returns its outcome-log entries, the tracker
afterwards, and whether recovery was executed. -/
def execOne (cfg : AgentConfig) (t : BrowserStateTracker) (cmd : Command)
    (w : CommandWorld) : List BatchEntry × BrowserStateTracker × Bool :=
  match cmd with
  | Command.goto url =>
    let t0 := recordIfReal t w.preUrl "" w.ts
    if w.actionSucceeds then
      afterActionCheck cfg t0 w [BatchEntry.navOk url]
        (t0.record_url url true w.pageTitle w.ts)
    else
      let t1 := match w.postUrl with
        | some u => if u ≠ "" then t0.mark_error u ("navigation failed: " ++ url) w.ts else t0
        | none => t0
      let sugg := if BrowserStateTracker.optTruthy t1.get_recovery_url then
          [BatchEntry.navSuggestion (t1.get_recovery_url.getD "")]
        else []
      ([BatchEntry.navFailed url, BatchEntry.generic "navigation recovery hints"] ++ sugg,
        t1, false)
  | Command.click selector =>
    if w.actionSucceeds then
      afterActionCheck cfg t w [BatchEntry.clickOk selector]
        (recordIfReal t w.postUrl w.pageTitle w.ts)
    else
      ([BatchEntry.clickFailed selector] ++ w.fallbackLog.map BatchEntry.generic, t, false)
  | Command.typeInto selector text =>
    ([BatchEntry.generic ("typed into " ++ selector ++ ": " ++ text)], t, false)
  | Command.selectOpt args =>
    ([BatchEntry.generic ("select " ++ args)], t, false)
  | Command.enter => ([BatchEntry.generic "pressed enter"], t, false)
  | Command.scrolldown px => ([BatchEntry.generic ("scrolled down " ++ px)], t, false)
  | Command.scrollup px => ([BatchEntry.generic ("scrolled up " ++ px)], t, false)
  | Command.wait ms => ([BatchEntry.generic ("waited " ++ ms)], t, false)
  | Command.think text => ([BatchEntry.generic ("thought: " ++ text)], t, false)
  | Command.back =>
    if w.actionSucceeds then
      let t1 := if t.has_error then { t with has_error := false } else t
      ([BatchEntry.generic "went back"], t1, false)
    else
      let sugg := if BrowserStateTracker.optTruthy t.get_recovery_url then
          [BatchEntry.navSuggestion (t.get_recovery_url.getD "")]
        else []
      ([BatchEntry.generic "back failed"] ++ sugg, t, false)
  | Command.refresh => ([BatchEntry.generic "refreshed"], t, false)
  | Command.screenshot =>
    let d := detect_page_error w.signals
    if d.1 then
      let sugg := if t.get_suggestion ≠ "" then [BatchEntry.generic t.get_suggestion] else []
      let t1 := match w.postUrl with
        | some u => if u ≠ "" then t.mark_error u d.2.1 w.ts else t
        | none => t
      ([BatchEntry.generic ("error detected: " ++ d.2.1)] ++ sugg
        ++ [BatchEntry.generic "screenshot taken"], t1, false)
    else
      ([BatchEntry.generic "screenshot taken"],
        recordIfReal t w.postUrl w.pageTitle w.ts, false)
  | Command.unknown raw => ([BatchEntry.generic ("unknown command: " ++ raw)], t, false)

/-- The batch loop: run each command in order, aborting (and discarding the
remaining commands) as soon as one of them reports recovery executed. -/
def execCommands (cfg : AgentConfig) (t : BrowserStateTracker) :
    List (Command × CommandWorld) → List BatchEntry × BrowserStateTracker × Bool
  | [] => ([], t, false)
  | (c, w) :: rest =>
    let r := execOne cfg t c w
    if r.2.2 then (r.1, r.2.1, true)
    else
      let r2 := execCommands cfg r.2.1 rest
      (r.1 ++ r2.1, r2.2.1, r2.2.2)

/-- When the recovery controller reports success, its log holds the entry of
the action that succeeded (the recovery navigation or the go-back). -/
theorem handle_true_has_entry (cfg : AgentConfig) (env : RecoveryEnv)
    (t : BrowserStateTracker) (msg : String) (lvl ts : Nat)
    (h : (handle_error_with_recovery cfg env t msg lvl ts).1 = true) :
    (∃ u, LogEntry.recoveredTo u ∈ (handle_error_with_recovery cfg env t msg lvl ts).2.2) ∨
    LogEntry.wentBack ∈ (handle_error_with_recovery cfg env t msg lvl ts).2.2 := by
  by_cases hC : attemptCond cfg (recoveryMarked env t msg ts) lvl = true
  · by_cases hT : BrowserStateTracker.optTruthy
        (recoveryMarked env t msg ts).get_recovery_url = true
    · by_cases hG : env.gotoSucceeds
          ((recoveryMarked env t msg ts).get_recovery_url.getD "") = true
      · rw [handle_goto_ok cfg env t msg lvl ts hC hT hG]
        exact Or.inl ⟨(recoveryMarked env t msg ts).get_recovery_url.getD "", by simp⟩
      · by_cases hK : env.goBackSucceeds = true
        · rw [handle_goto_fail_back_ok cfg env t msg lvl ts hC hT (by simpa using hG) hK]
          exact Or.inr (by simp)
        · rw [handle_goto_fail_back_fail cfg env t msg lvl ts hC hT (by simpa using hG)
            (by simpa using hK), suggestTail_fst] at h
          exact absurd h (by simp)
    · by_cases hK : env.goBackSucceeds = true
      · rw [handle_no_url_back_ok cfg env t msg lvl ts hC (by simpa using hT) hK]
        exact Or.inr (by simp)
      · rw [handle_no_url_back_fail cfg env t msg lvl ts hC (by simpa using hT)
          (by simpa using hK), suggestTail_fst] at h
        exact absurd h (by simp)
  · rw [handle_no_attempt cfg env t msg lvl ts (by simpa using hC), suggestTail_fst] at h
    exact absurd h (by simp)

/-- When `recoveryStep` reports recovery executed, its entry list surfaces
the recovery action. -/
theorem recoveryStep_true_entry (cfg : AgentConfig) (w : CommandWorld)
    (t0 : BrowserStateTracker) (okEntries : List BatchEntry) (msg : String) (lvl : Nat)
    (h : (recoveryStep cfg w t0 okEntries msg lvl).2.2 = true) :
    (∃ u, BatchEntry.fromRecovery (LogEntry.recoveredTo u)
        ∈ (recoveryStep cfg w t0 okEntries msg lvl).1) ∨
    BatchEntry.fromRecovery LogEntry.wentBack
        ∈ (recoveryStep cfg w t0 okEntries msg lvl).1 := by
  simp only [recoveryStep] at h ⊢
  rcases handle_true_has_entry cfg w.recovery t0 msg lvl w.ts h with ⟨u, hu⟩ | hw
  · exact Or.inl ⟨u, List.mem_append_right _ (List.mem_map_of_mem _ hu)⟩
  · exact Or.inr (List.mem_append_right _ (List.mem_map_of_mem _ hw))

/-- When the shared post-action check reports recovery executed, its entry
list surfaces the recovery action. -/
theorem afterActionCheck_true_entry (cfg : AgentConfig) (t0 : BrowserStateTracker)
    (w : CommandWorld) (okEntries : List BatchEntry) (st : BrowserStateTracker)
    (h : (afterActionCheck cfg t0 w okEntries st).2.2 = true) :
    (∃ u, BatchEntry.fromRecovery (LogEntry.recoveredTo u)
        ∈ (afterActionCheck cfg t0 w okEntries st).1) ∨
    BatchEntry.fromRecovery LogEntry.wentBack
        ∈ (afterActionCheck cfg t0 w okEntries st).1 := by
  revert h
  unfold afterActionCheck
  rcases ask_llm_about_page_state w.llm w.pageContent with ⟨v, reason⟩
  cases v with
  | none =>
    dsimp only
    by_cases hd : (detect_page_error w.signals).1 = true
    · rw [if_pos hd]
      exact recoveryStep_true_entry cfg w t0 okEntries _ _
    · rw [if_neg hd]
      intro h
      simp at h
  | some b =>
    cases b with
    | true =>
      intro h
      simp at h
    | false =>
      dsimp only
      exact recoveryStep_true_entry cfg w t0 okEntries _ _

/-- C6.  If a command's execution reports recovery executed, the batch stops
there: the batch outcome equals that command's outcome alone — the remaining
commands (whatever they are) are not executed and contribute no outcome-log
entries — the recovery flag is surfaced to the caller, and the outcome log
contains the recovery action's entry. -/
theorem batch_abort_on_recovery (cfg : AgentConfig) (t : BrowserStateTracker)
    (c : Command) (w : CommandWorld) (rest : List (Command × CommandWorld))
    (hrec : (execOne cfg t c w).2.2 = true) :
    execCommands cfg t ((c, w) :: rest)
      = ((execOne cfg t c w).1, (execOne cfg t c w).2.1, true) ∧
    ((∃ u, BatchEntry.fromRecovery (LogEntry.recoveredTo u) ∈ (execOne cfg t c w).1) ∨
      BatchEntry.fromRecovery LogEntry.wentBack ∈ (execOne cfg t c w).1) := by
  constructor
  · simp [execCommands, hrec]
  · cases c with
    | goto url =>
      simp only [execOne] at hrec ⊢
      by_cases hact : w.actionSucceeds = true
      · rw [if_pos hact] at hrec ⊢
        exact afterActionCheck_true_entry cfg _ w _ _ hrec
      · rw [if_neg hact] at hrec
        simp at hrec
    | click selector =>
      simp only [execOne] at hrec ⊢
      by_cases hact : w.actionSucceeds = true
      · rw [if_pos hact] at hrec ⊢
        exact afterActionCheck_true_entry cfg _ w _ _ hrec
      · rw [if_neg hact] at hrec
        simp at hrec
    | typeInto selector text => simp [execOne] at hrec
    | selectOpt args => simp [execOne] at hrec
    | enter => simp [execOne] at hrec
    | scrolldown px => simp [execOne] at hrec
    | scrollup px => simp [execOne] at hrec
    | wait ms => simp [execOne] at hrec
    | think text => simp [execOne] at hrec
    | back =>
      simp only [execOne] at hrec
      split at hrec <;> simp at hrec
    | refresh => simp [execOne] at hrec
    | screenshot =>
      simp only [execOne] at hrec
      split at hrec <;> simp at hrec
    | unknown raw => simp [execOne] at hrec

/-- Advisory environment that judges the page normal. -/
def llmEnvOk : LlmEnv :=
  { apiKeyPresent := true, requestRaises := false, statusCode := 200
    parseRaises := false, hasChoices := true, aiText := "状态:正常" }

/-- Advisory environment that judges the page abnormal (severity 3 anomaly). -/
def llmEnvBad : LlmEnv :=
  { apiKeyPresent := true, requestRaises := false, statusCode := 200
    parseRaises := false, hasChoices := true, aiText := "状态:错误 SQL错误" }

/-- World for a healthy first navigation. -/
def wHome : CommandWorld :=
  { actionSucceeds := true, llm := llmEnvOk, pageContent := "welcome home"
    signals := healthySignals, preUrl := none, postUrl := some "http://site/home"
    pageTitle := "Home"
    recovery := { currentUrl := some "http://site/home"
                  gotoSucceeds := fun _ => true, goBackSucceeds := true }
    fallbackLog := [], ts := 0 }

/-- World for the anomalous second navigation whose recovery succeeds. -/
def wErrPage : CommandWorld :=
  { actionSucceeds := true, llm := llmEnvBad, pageContent := "SQL syntax error"
    signals := { httpStatus := some 500, pageContent := "SQL syntax error"
                 textContent := some "SQL syntax error", jsErrors := [] }
    preUrl := some "http://site/home", postUrl := some "http://site/err"
    pageTitle := "Err"
    recovery := { currentUrl := some "http://site/err"
                  gotoSucceeds := fun _ => true, goBackSucceeds := false }
    fallbackLog := [], ts := 1 }

/-- The five-command batch of the spec scenario: command 2 triggers a
severity-3 anomaly and recovers. -/
def batchTail : List (Command × CommandWorld) :=
  [ (Command.think "inspect", wHome)
  , (Command.click "#login", wHome)
  , (Command.goto "http://site/next", wHome) ]

/-- Tracker state after the first (healthy) command of the batch. -/
def tAfterC1 : BrowserStateTracker :=
  (execOne cfgDefault (BrowserStateTracker.init 10 true)
    (Command.goto "http://site/home") wHome).2.1

theorem batch_abort_on_recovery_witness :
    execCommands cfgDefault (BrowserStateTracker.init 10 true)
        ((Command.goto "http://site/home", wHome)
          :: (Command.goto "http://site/err", wErrPage) :: batchTail)
      = ((execOne cfgDefault (BrowserStateTracker.init 10 true)
            (Command.goto "http://site/home") wHome).1
          ++ (execOne cfgDefault tAfterC1 (Command.goto "http://site/err") wErrPage).1,
         (execOne cfgDefault tAfterC1 (Command.goto "http://site/err") wErrPage).2.1,
         true) := by
  have hrec2 : (execOne cfgDefault
      (execOne cfgDefault (BrowserStateTracker.init 10 true)
        (Command.goto "http://site/home") wHome).2.1
      (Command.goto "http://site/err") wErrPage).2.2 = true := by decide
  have h := (batch_abort_on_recovery cfgDefault tAfterC1
    (Command.goto "http://site/err") wErrPage batchTail hrec2).1
  have hc1 : (execOne cfgDefault (BrowserStateTracker.init 10 true)
      (Command.goto "http://site/home") wHome).2.2 = false := by decide
  conv_lhs => rw [execCommands]
  simp only [hc1, Bool.false_eq_true, if_false]
  have h2 : execCommands cfgDefault
      (execOne cfgDefault (BrowserStateTracker.init 10 true)
        (Command.goto "http://site/home") wHome).2.1
      ((Command.goto "http://site/err", wErrPage) :: batchTail)
      = ((execOne cfgDefault tAfterC1 (Command.goto "http://site/err") wErrPage).1,
         (execOne cfgDefault tAfterC1 (Command.goto "http://site/err") wErrPage).2.1,
         true) := h
  rw [h2]

/-! ## Test phase state machine (`TestFramework`, src/modules/test_framework.py)

`process_command` parses the command line, bumps the command counter, updates
the phase state (`_update_state_from_command`, which ends by calling
`_check_phase_transition`), then may emit a one-time phase introduction
(setting its sent-flag) or a rate-limited guidance message (stamping
`last_guidance_time`).  The guidance *texts* are advisory strings with no
effect on state and are not modelled; the state effects are. -/

def PHASE_RECON : Nat := 1

def PHASE_BASELINE : Nat := 2

def PHASE_PLANNING : Nat := 3

def PHASE_EXPLOIT : Nat := 4

/-- The state fields of `TestFramework`. -/
structure TestFramework where
  current_phase : Nat
  phase_progress : Nat
  security_mechanisms : List (String × String)
  input_points : List (String × String)
  discoveries : List (String × Nat)
  last_guidance_time : Nat
  guidance_interval : Nat
  command_counter : Nat
  intro_sent_baseline : Bool
  intro_sent_planning : Bool
  intro_sent_exploit : Bool
  deriving Repr, DecidableEq

namespace TestFramework

/-- `TestFramework.__init__` (the Recon intro counts as already sent). -/
def initFw : TestFramework :=
  { current_phase := PHASE_RECON, phase_progress := 0
    security_mechanisms := [], input_points := [], discoveries := []
    last_guidance_time := 0, guidance_interval := 30, command_counter := 0
    intro_sent_baseline := false, intro_sent_planning := false
    intro_sent_exploit := false }

end TestFramework

/-- The space character. -/
def spaceChar : Char := Char.ofNat 32

/-- `s.split(' ', 1)`: the part before the first space, and (when a space
exists) the remainder after it. -/
def breakAtSpace : List Char → List Char × Option (List Char)
  | [] => ([], none)
  | c :: rest =>
    if c = spaceChar then ([], some rest)
    else
      let r := breakAtSpace rest
      (c :: r.1, r.2)

/-- `cmd.split(' ', 1)[0]`. -/
def cmdType (cmd : String) : String := String.mk (breakAtSpace cmd.toList).1

/-- `cmd.split(' ', 1)[1]` (or `""` when the command has no argument). -/
def cmdContent (cmd : String) : String :=
  String.mk ((breakAtSpace cmd.toList).2.getD [])

namespace TestFramework

/-- `_add_security_mechanism` (deduplicated by type). -/
def add_security_mechanism (fw : TestFramework) (mechType desc : String) :
    TestFramework :=
  if fw.security_mechanisms.any (fun m => m.1 = mechType) then fw
  else { fw with security_mechanisms := fw.security_mechanisms ++ [(mechType, desc)] }

/-- `_add_input_point` (deduplicated by selector). -/
def add_input_point (fw : TestFramework) (selector context : String) : TestFramework :=
  if fw.input_points.any (fun p => p.1 = selector) then fw
  else { fw with input_points := fw.input_points ++ [(selector, context)] }

/-- `_add_discovery`. -/
def add_discovery (fw : TestFramework) (desc : String) : TestFramework :=
  { fw with discoveries := fw.discoveries ++ [(desc, fw.current_phase)] }

/-- Add `n` to the phase progress. -/
def bump (fw : TestFramework) (n : Nat) : TestFramework :=
  { fw with phase_progress := fw.phase_progress + n }

/-- Recon: a THINK mentioning a captcha registers the mechanism and +10. -/
def recon_captcha (fw : TestFramework) (cmdT cmdC : String) : TestFramework :=
  if cmdT = "THINK" &&
      (strContains cmdC "验证码" || strContains (strToLower cmdC) "captcha") then
    bump (add_security_mechanism fw "captcha" "验证码保护") 10
  else fw

/-- Recon: a THINK mentioning CSRF/token registers the mechanism and +10. -/
def recon_csrf (fw : TestFramework) (cmdT cmdC : String) : TestFramework :=
  if cmdT = "THINK" &&
      (strContains (strToLower cmdC) "csrf" || strContains cmdC "令牌" ||
       strContains (strToLower cmdC) "token") then
    bump (add_security_mechanism fw "csrf" "CSRF令牌保护") 10
  else fw

/-- Recon: a TYPE registers its selector as an input point and +5. -/
def recon_type (fw : TestFramework) (cmdT cmdC : String) : TestFramework :=
  if cmdT = "TYPE" then
    bump (add_input_point fw (String.mk (breakAtSpace cmdC.toList).1) cmdC) 5
  else fw

/-- Recon: GOTO/CLICK exploration is +3. -/
def recon_explore (fw : TestFramework) (cmdT : String) : TestFramework :=
  if cmdT = "GOTO" || cmdT = "CLICK" then bump fw 3 else fw

/-- Recon: SCREENSHOT analysis is +2. -/
def recon_screenshot (fw : TestFramework) (cmdT : String) : TestFramework :=
  if cmdT = "SCREENSHOT" then bump fw 2 else fw

/-- The Recon branch of `_update_state_from_command`. -/
def recon_update (fw : TestFramework) (cmdT cmdC : String) : TestFramework :=
  recon_screenshot
    (recon_explore (recon_type (recon_csrf (recon_captcha fw cmdT cmdC) cmdT cmdC)
      cmdT cmdC) cmdT) cmdT

/-- Baseline: a TYPE with a multi-token argument is +5. -/
def baseline_type (fw : TestFramework) (cmdT cmdC : String) : TestFramework :=
  if cmdT = "TYPE" && cmdC.toList.contains spaceChar then bump fw 5 else fw

/-- Baseline: clicking a login control is +10 plus a discovery. -/
def baseline_login (fw : TestFramework) (cmdT cmdC : String) : TestFramework :=
  if cmdT = "CLICK" && strContains cmdC "登录" then
    add_discovery (bump fw 10) "尝试正常登录流程"
  else fw

/-- Baseline: typing a captcha answer is +8 plus a discovery. -/
def baseline_captcha (fw : TestFramework) (cmdT cmdC : String) : TestFramework :=
  if cmdT = "TYPE" && strContains cmdC "验证码" then
    add_discovery (bump fw 8) "正确处理验证码"
  else fw

/-- The Baseline branch of `_update_state_from_command`. -/
def baseline_update (fw : TestFramework) (cmdT cmdC : String) : TestFramework :=
  baseline_captcha (baseline_login (baseline_type fw cmdT cmdC) cmdT cmdC) cmdT cmdC

/-- The Planning branch of `_update_state_from_command`: a vulnerability
THINK is +10, and each matched vulnerability family adds a discovery. -/
def planning_update (fw : TestFramework) (cmdT cmdC : String) : TestFramework :=
  if cmdT = "THINK" && (["sql", "注入", "xss", "csrf", "漏洞"].any
      (fun term => strContains (strToLower cmdC) term)) then
    ["sql注入", "xss", "csrf", "命令注入", "文件上传"].foldl
      (fun fw term =>
        if strContains (strToLower cmdC) term then
          add_discovery fw ("计划测试" ++ term ++ "漏洞")
        else fw) (bump fw 10)
  else fw

/-- Exploit: a TYPE carrying SQL metacharacters is +5 plus a discovery. -/
def exploit_sql (fw : TestFramework) (cmdT cmdC : String) : TestFramework :=
  if cmdT = "TYPE" && ([sq, "\"", "--", "UNION", "SELECT"].any
      (fun term => strContains cmdC term)) then
    add_discovery (bump fw 5) "执行SQL注入测试"
  else fw

/-- Exploit: a TYPE carrying XSS markers is +5 plus a discovery. -/
def exploit_xss (fw : TestFramework) (cmdT cmdC : String) : TestFramework :=
  if cmdT = "TYPE" && (["<script>", "alert", "onerror", "javascript:"].any
      (fun term => strContains cmdC term)) then
    add_discovery (bump fw 5) "执行XSS注入测试"
  else fw

/-- The Exploit branch of `_update_state_from_command`. -/
def exploit_update (fw : TestFramework) (cmdT cmdC : String) : TestFramework :=
  exploit_xss (exploit_sql fw cmdT cmdC) cmdT cmdC

/-- `_check_phase_transition` (non-reversible, one step at a time). -/
def check_phase_transition (fw : TestFramework) : TestFramework :=
  if fw.current_phase = PHASE_RECON ∧ fw.phase_progress ≥ 80 then
    if fw.security_mechanisms.length ≥ 1 ∧ fw.input_points.length ≥ 2 then
      { fw with current_phase := PHASE_BASELINE, phase_progress := 0 }
    else fw
  else if fw.current_phase = PHASE_BASELINE ∧ fw.phase_progress ≥ 60 then
    { fw with current_phase := PHASE_PLANNING, phase_progress := 0 }
  else if fw.current_phase = PHASE_PLANNING ∧ fw.phase_progress ≥ 70 then
    { fw with current_phase := PHASE_EXPLOIT, phase_progress := 0 }
  else fw

/-- The per-phase updates plus the progress clamp (`min(100, ...)`), i.e.
`_update_state_from_command` up to but excluding the transition check. -/
def update_fields (fw : TestFramework) (cmdT cmdC : String) : TestFramework :=
  let fw :=
    if fw.current_phase = PHASE_RECON then recon_update fw cmdT cmdC
    else if fw.current_phase = PHASE_BASELINE then baseline_update fw cmdT cmdC
    else if fw.current_phase = PHASE_PLANNING then planning_update fw cmdT cmdC
    else if fw.current_phase = PHASE_EXPLOIT then exploit_update fw cmdT cmdC
    else fw
  { fw with phase_progress := min 100 fw.phase_progress }

/-- `_update_state_from_command`. -/
def update_state_from_command (fw : TestFramework) (cmdT cmdC : String) :
    TestFramework :=
  check_phase_transition (update_fields fw cmdT cmdC)

/-- `_check_phase_intro`'s state effect: a newly entered phase gets its
sent-flag set (and the intro message is returned, short-circuiting the
guidance check). -/
def introPending (fw : TestFramework) : Bool :=
  (fw.current_phase = PHASE_BASELINE && !fw.intro_sent_baseline) ||
  (fw.current_phase = PHASE_PLANNING && !fw.intro_sent_planning) ||
  (fw.current_phase = PHASE_EXPLOIT && !fw.intro_sent_exploit)

/-- Set the sent-flag of the current phase. -/
def mark_intro_sent (fw : TestFramework) : TestFramework :=
  if fw.current_phase = PHASE_BASELINE then { fw with intro_sent_baseline := true }
  else if fw.current_phase = PHASE_PLANNING then { fw with intro_sent_planning := true }
  else if fw.current_phase = PHASE_EXPLOIT then { fw with intro_sent_exploit := true }
  else fw

/-- `_should_send_guidance`'s test (its state effect is stamping
`last_guidance_time`). -/
def guidanceDue (fw : TestFramework) (now : Nat) : Bool :=
  !(now - fw.last_guidance_time < fw.guidance_interval) &&
  fw.command_counter % 10 = 0

/-- `process_command`'s state evolution: counter, state update with
transition check, then the intro-flag/guidance-time effects.  (The returned
message strings are advisory only and carry no state.) -/
def process_command (fw : TestFramework) (cmd : String) (now : Nat) :
    TestFramework :=
  if cmd = "" then fw
  else
    let fw1 := { fw with command_counter := fw.command_counter + 1 }
    let fw2 := update_state_from_command fw1 (cmdType cmd) (cmdContent cmd)
    if introPending fw2 then mark_intro_sent fw2
    else if guidanceDue fw2 now then { fw2 with last_guidance_time := now }
    else fw2

theorem add_security_mechanism_phase (fw : TestFramework) (t d : String) :
    (add_security_mechanism fw t d).current_phase = fw.current_phase := by
  unfold add_security_mechanism
  split_ifs <;> rfl

theorem add_input_point_phase (fw : TestFramework) (sel ctx : String) :
    (add_input_point fw sel ctx).current_phase = fw.current_phase := by
  unfold add_input_point
  split_ifs <;> rfl

theorem add_discovery_phase (fw : TestFramework) (d : String) :
    (add_discovery fw d).current_phase = fw.current_phase := rfl

theorem foldl_discovery_phase (cmdC : String) (terms : List String) :
    ∀ fw : TestFramework,
      (terms.foldl (fun fw term =>
        if strContains (strToLower cmdC) term then
          add_discovery fw ("计划测试" ++ term ++ "漏洞")
        else fw) fw).current_phase = fw.current_phase := by
  induction terms with
  | nil => intro fw; rfl
  | cons term rest ih =>
    intro fw
    simp only [List.foldl_cons]
    rw [ih]
    split_ifs <;> rfl

theorem recon_update_phase (fw : TestFramework) (cmdT cmdC : String) :
    (recon_update fw cmdT cmdC).current_phase = fw.current_phase := by
  unfold recon_update recon_screenshot recon_explore recon_type recon_csrf recon_captcha
  split_ifs <;>
    simp [bump, add_security_mechanism_phase, add_input_point_phase]

theorem baseline_update_phase (fw : TestFramework) (cmdT cmdC : String) :
    (baseline_update fw cmdT cmdC).current_phase = fw.current_phase := by
  unfold baseline_update baseline_captcha baseline_login baseline_type
  split_ifs <;>
    simp [bump, add_discovery_phase, add_discovery]

theorem planning_update_phase (fw : TestFramework) (cmdT cmdC : String) :
    (planning_update fw cmdT cmdC).current_phase = fw.current_phase := by
  unfold planning_update
  split_ifs with h1
  · rw [foldl_discovery_phase]
    rfl
  · rfl

theorem exploit_update_phase (fw : TestFramework) (cmdT cmdC : String) :
    (exploit_update fw cmdT cmdC).current_phase = fw.current_phase := by
  unfold exploit_update exploit_xss exploit_sql
  split_ifs <;>
    simp [bump, add_discovery]

theorem update_fields_phase (fw : TestFramework) (cmdT cmdC : String) :
    (update_fields fw cmdT cmdC).current_phase = fw.current_phase := by
  simp only [update_fields]
  split_ifs <;>
    simp [recon_update_phase, baseline_update_phase, planning_update_phase,
      exploit_update_phase]

theorem update_fields_progress_le (fw : TestFramework) (cmdT cmdC : String) :
    (update_fields fw cmdT cmdC).phase_progress ≤ 100 := by
  simp only [update_fields]
  exact Nat.min_le_left _ _

/-- `_check_phase_transition` from Recon, in closed form. -/
theorem check_recon (fw : TestFramework) (h : fw.current_phase = PHASE_RECON) :
    check_phase_transition fw =
      if 80 ≤ fw.phase_progress ∧ 1 ≤ fw.security_mechanisms.length ∧
          2 ≤ fw.input_points.length
      then { fw with current_phase := PHASE_BASELINE, phase_progress := 0 }
      else fw := by
  unfold check_phase_transition
  by_cases hp : 80 ≤ fw.phase_progress
  · rw [if_pos ⟨h, hp⟩]
    by_cases hm : 1 ≤ fw.security_mechanisms.length ∧ 2 ≤ fw.input_points.length
    · rw [if_pos hm, if_pos ⟨hp, hm.1, hm.2⟩]
    · rw [if_neg hm, if_neg (fun hc => hm ⟨hc.2.1, hc.2.2⟩)]
  · rw [if_neg (fun hc => hp hc.2),
      if_neg (by rw [h]; simp [PHASE_RECON, PHASE_BASELINE]),
      if_neg (by rw [h]; simp [PHASE_RECON, PHASE_PLANNING]),
      if_neg (fun hc => hp hc.1)]

theorem check_phase_bounds (fw : TestFramework) :
    fw.current_phase ≤ (check_phase_transition fw).current_phase ∧
    (check_phase_transition fw).current_phase ≤ fw.current_phase + 1 := by
  unfold check_phase_transition
  split_ifs with h1 h2 h3 h4 <;>
    simp_all [PHASE_RECON, PHASE_BASELINE, PHASE_PLANNING, PHASE_EXPLOIT]

theorem check_progress_cases (fw : TestFramework) :
    (check_phase_transition fw).phase_progress = 0 ∨
    (check_phase_transition fw).phase_progress = fw.phase_progress := by
  unfold check_phase_transition
  split_ifs <;> simp

/-- The intro-flag/guidance-time postlude of `process_command` does not touch
the phase, the progress, or the discovered mechanisms/input points. -/
theorem process_command_core (fw : TestFramework) (cmd : String) (now : Nat)
    (h : cmd ≠ "") :
    (process_command fw cmd now).current_phase =
      (update_state_from_command { fw with command_counter := fw.command_counter + 1 }
        (cmdType cmd) (cmdContent cmd)).current_phase ∧
    (process_command fw cmd now).phase_progress =
      (update_state_from_command { fw with command_counter := fw.command_counter + 1 }
        (cmdType cmd) (cmdContent cmd)).phase_progress ∧
    (process_command fw cmd now).security_mechanisms =
      (update_state_from_command { fw with command_counter := fw.command_counter + 1 }
        (cmdType cmd) (cmdContent cmd)).security_mechanisms ∧
    (process_command fw cmd now).input_points =
      (update_state_from_command { fw with command_counter := fw.command_counter + 1 }
        (cmdType cmd) (cmdContent cmd)).input_points := by
  simp only [process_command, mark_intro_sent]
  rw [if_neg h]
  split_ifs <;> simp

/-- C9.  From Recon, one processed command moves the machine to Baseline iff
the post-update progress is at least 80 AND at least one security mechanism
AND at least two input points have been recorded; the transition resets
progress to 0; phases never move backwards and advance at most one step per
command; and progress saturates at 100. -/
theorem phase_transition_thresholds :
    (∀ (fw : TestFramework) (cmd : String) (now : Nat),
      fw.current_phase = PHASE_RECON → cmd ≠ "" →
      (((process_command fw cmd now).current_phase = PHASE_BASELINE) ↔
        (80 ≤ (update_fields { fw with command_counter := fw.command_counter + 1 }
            (cmdType cmd) (cmdContent cmd)).phase_progress ∧
         1 ≤ (update_fields { fw with command_counter := fw.command_counter + 1 }
            (cmdType cmd) (cmdContent cmd)).security_mechanisms.length ∧
         2 ≤ (update_fields { fw with command_counter := fw.command_counter + 1 }
            (cmdType cmd) (cmdContent cmd)).input_points.length))) ∧
    (∀ (fw : TestFramework) (cmd : String) (now : Nat),
      fw.current_phase = PHASE_RECON →
      (process_command fw cmd now).current_phase = PHASE_BASELINE →
      (process_command fw cmd now).phase_progress = 0) ∧
    (∀ (fw : TestFramework) (cmd : String) (now : Nat),
      fw.current_phase ≤ (process_command fw cmd now).current_phase ∧
      (process_command fw cmd now).current_phase ≤ fw.current_phase + 1) ∧
    (∀ (fw : TestFramework) (cmd : String) (now : Nat), cmd ≠ "" →
      (process_command fw cmd now).phase_progress ≤ 100) := by
  have hcheck : ∀ (fw : TestFramework) (cmdT cmdC : String),
      fw.current_phase = PHASE_RECON →
      update_state_from_command fw cmdT cmdC =
        (if 80 ≤ (update_fields fw cmdT cmdC).phase_progress ∧
            1 ≤ (update_fields fw cmdT cmdC).security_mechanisms.length ∧
            2 ≤ (update_fields fw cmdT cmdC).input_points.length
        then { update_fields fw cmdT cmdC with
                current_phase := PHASE_BASELINE, phase_progress := 0 }
        else update_fields fw cmdT cmdC) := by
    intro fw cmdT cmdC h
    unfold update_state_from_command
    exact check_recon _ (by rw [update_fields_phase]; exact h)
  refine ⟨?_, ?_, ?_, ?_⟩
  · intro fw cmd now h1 hne
    have core := process_command_core fw cmd now hne
    rw [core.1, hcheck _ _ _ (by exact h1)]
    by_cases hcond : 80 ≤ (update_fields { fw with
          command_counter := fw.command_counter + 1 }
        (cmdType cmd) (cmdContent cmd)).phase_progress ∧
        1 ≤ (update_fields { fw with command_counter := fw.command_counter + 1 }
          (cmdType cmd) (cmdContent cmd)).security_mechanisms.length ∧
        2 ≤ (update_fields { fw with command_counter := fw.command_counter + 1 }
          (cmdType cmd) (cmdContent cmd)).input_points.length
    · rw [if_pos hcond]
      simpa using hcond
    · rw [if_neg hcond]
      rw [update_fields_phase]
      constructor
      · intro hc
        dsimp only at hc
        rw [h1] at hc
        exact absurd hc (by decide)
      · intro hc
        exact absurd hc hcond
  · intro fw cmd now h1 h2
    by_cases hne : cmd = ""
    · subst hne
      rw [show process_command fw "" now = fw by simp [process_command]] at h2
      rw [h1] at h2
      exact absurd h2 (by decide)
    · have core := process_command_core fw cmd now hne
      rw [core.1, hcheck _ _ _ (by exact h1)] at h2
      rw [core.2.1, hcheck _ _ _ (by exact h1)]
      by_cases hcond : 80 ≤ (update_fields { fw with
            command_counter := fw.command_counter + 1 }
          (cmdType cmd) (cmdContent cmd)).phase_progress ∧
          1 ≤ (update_fields { fw with command_counter := fw.command_counter + 1 }
            (cmdType cmd) (cmdContent cmd)).security_mechanisms.length ∧
          2 ≤ (update_fields { fw with command_counter := fw.command_counter + 1 }
            (cmdType cmd) (cmdContent cmd)).input_points.length
      · rw [if_pos hcond]
      · rw [if_neg hcond] at h2
        rw [update_fields_phase] at h2
        dsimp only at h2
        rw [h1] at h2
        exact absurd h2 (by decide)
  · intro fw cmd now
    by_cases hne : cmd = ""
    · rw [hne]
      simp [process_command]
    · have core := process_command_core fw cmd now hne
      rw [core.1]
      unfold update_state_from_command
      have hb := check_phase_bounds (update_fields { fw with
        command_counter := fw.command_counter + 1 } (cmdType cmd) (cmdContent cmd))
      rw [update_fields_phase] at hb
      exact ⟨hb.1, hb.2⟩
  · intro fw cmd now hne
    have core := process_command_core fw cmd now hne
    rw [core.2.1]
    unfold update_state_from_command
    rcases check_progress_cases (update_fields { fw with
        command_counter := fw.command_counter + 1 } (cmdType cmd) (cmdContent cmd))
      with hc | hc
    · rw [hc]
      exact Nat.zero_le _
    · rw [hc]
      exact update_fields_progress_le _ _ _

/-- A Recon state reaching progress 80 with one mechanism and no input
points, built by replaying eight captcha-observation commands. -/
def fwRecon80 : TestFramework :=
  (List.replicate 8 "THINK look captcha here").foldl
    (fun fw c => process_command fw c 0) TestFramework.initFw

/-- After one further TYPE: progress 85, one input point — still Recon. -/
def fwOneInput : TestFramework := process_command fwRecon80 "TYPE user admin" 0

set_option maxRecDepth 8000 in
theorem phase_transition_thresholds_witness :
    fwOneInput.current_phase = PHASE_RECON ∧
    80 ≤ fwOneInput.phase_progress ∧
    fwOneInput.input_points.length = 1 ∧
    (process_command fwOneInput "TYPE pass secret" 0).current_phase = PHASE_BASELINE ∧
    (process_command fwOneInput "TYPE pass secret" 0).phase_progress = 0 := by
  have h2 := (phase_transition_thresholds.1 fwOneInput "TYPE pass secret" 0
    (by decide) (by decide)).mpr (by decide)
  exact ⟨by decide, by decide, by decide, h2,
    phase_transition_thresholds.2.1 fwOneInput "TYPE pass secret" 0 (by decide) h2⟩

end TestFramework

end Deepulse
